import Mathlib

/-!
Verification of the LLM_CHATBOX conversational analytics layer.

This file shallowly embeds, in Lean 4, the core logic of the repository:

* `data_processor.py` (`DataProcessor`): column-name normalization, load-time
  validation, and column-type inference;
* `fallback_query_handler.py` (`FallbackQueryHandler`): the rule-based intent
  classifier and the six query executors;
* `query_handler.py` (`QueryHandler`): the summary/filter executors of the
  AI-assisted path (identical filter logic, richer summary record);
* `visualization.py` (`ChartGenerator`): the structural validity checks of
  the chart builder.

Modelling conventions:

* Python strings are Lean `String`s; the Python operations `lower`, `strip`,
  and substring membership (the `in` operator) are re-implemented over the
  character list of the string, restricted to ASCII (the only characters the
  keyword sets, column names and messages of this program use).
* pandas numeric cells become `Rat`, missing cells (`NaN`) become an explicit
  `Value.null`; a pandas comparison against `NaN` is false, which the
  embedding reproduces by pattern matching.
* `pd.to_datetime` on a cell is modelled by `parsesAsDate`: ISO-shaped date
  strings (the shape of the dates in the repository's own test data, such as
  2024-01-01) parse, other strings raise, and plain numbers always convert —
  pandas reads integers and floats as nanoseconds since the epoch and only
  raises beyond the `Timestamp` range, approximated here by the signed
  64-bit nanosecond range.  Consequently `_infer_column_types` types every
  in-range all-numeric column as datetime, and a numeric column can survive
  type inference as numeric only when its sampled values defeat
  `pd.to_datetime` (out-of-range magnitudes) or the column has no non-null
  values at all; the concrete numeric-column states used below are built
  directly, standing for such states of the running program.
* Calls into plotly (`px.bar`, `px.histogram`, ...) are modelled as always
  succeeding once the explicit column-count/column-type guards of
  `visualization.py` have passed; a chart is represented by a `ChartSpec`
  recording the chart kind and the columns involved, since the claims under
  verification concern only the validity logic, not the pixels.
* Python's `list(set(...))` has unspecified order; the embedding uses
  first-occurrence order (`pyUnique`), which is also what `pandas.unique`
  guarantees.
-/

/-! ### Characters and Python string primitives -/

/-- ASCII lowercase conversion of one character, as Python's `str.lower`
performs on the ASCII range. -/
def pyLowerChar (c : Char) : Char :=
  if 65 ≤ c.toNat ∧ c.toNat ≤ 90 then Char.ofNat (c.toNat + 32) else c

/-- ASCII whitespace recognised by Python's `str.strip`. -/
def pySpace (c : Char) : Bool :=
  c = ' ' ∨ c = '\t' ∨ c = '\n' ∨ c = '\r' ∨ c.toNat = 11 ∨ c.toNat = 12

/-- Decimal digit test via code points. -/
def isDigitChar (c : Char) : Bool :=
  decide (48 ≤ c.toNat ∧ c.toNat ≤ 57)

/-- Strip a predicate from both ends of a character list. -/
def stripEnds (p : Char → Bool) (cs : List Char) : List Char :=
  ((cs.dropWhile p).reverse.dropWhile p).reverse

/-- Python `s.lower()`. -/
def pyLower (s : String) : String :=
  String.mk (s.toList.map pyLowerChar)

/-- Python `s.strip()`. -/
def pyStrip (s : String) : String :=
  String.mk (stripEnds pySpace s.toList)

/-- Contiguous substring test on character lists: does `needle` occur inside
`hay`? -/
def charsContain (hay needle : List Char) : Bool :=
  needle.isPrefixOf hay ||
    match hay with
    | [] => false
    | _ :: t => charsContain t needle

/-- Python substring membership `needle in hay`. -/
def pyIn (needle hay : String) : Bool :=
  charsContain hay.toList needle.toList

/-- Fuelled first-occurrence deduplication; the fuel bounds the recursion
depth and is kept at least the list length by every caller. -/
def pyUniqueAux {α : Type} [DecidableEq α] : Nat → List α → List α
  | 0, _ => []
  | _, [] => []
  | fuel + 1, x :: xs => x :: pyUniqueAux fuel (xs.filter (fun y => y ≠ x))

/-- First-occurrence deduplication, the order produced by `pandas.unique`. -/
def pyUnique {α : Type} [DecidableEq α] (l : List α) : List α :=
  pyUniqueAux l.length l

/-! ### Values and column types -/

/-- A cell of the in-memory dataset: a numeric value (pandas int64/float64,
idealised as a rational), a string, or a missing value (`NaN`). -/
inductive Value
  | num (x : Rat)
  | str (s : String)
  | null
deriving DecidableEq, Repr

/-- Python `str(value)` for the cell values the dataset holds.  Integers
stringify as their decimal digits; non-integer rationals use the `Rat`
representation (unreachable in every claim below, which only stringify
integer-valued and textual cells); a missing value stringifies as pandas
prints it. -/
def pyStr : Value → String
  | .num x => if x.den = 1 then toString x.num else toString x
  | .str s => s
  | .null => "nan"

/-- The four semantic column types assigned by `DataProcessor._infer_column_types`. -/
inductive CType
  | numeric
  | datetime
  | binary
  | categorical
deriving DecidableEq, Repr

/-- ISO-shaped date string: ten characters of digits with dashes at
positions 4 and 7 (for example 2024-01-01).  This is the model of a string
`pd.to_datetime` accepts. -/
def dateShaped (s : String) : Bool :=
  let cs := s.toList
  cs.length = 10 && cs.all (fun c => isDigitChar c || c = '-') &&
    cs.getD 4 ' ' = '-' && cs.getD 7 ' ' = '-'

/-- Model of a successful `pd.to_datetime` on one non-missing cell:
date-shaped strings parse and other strings raise, while a plain number is
converted without raising — pandas interprets integers and floats as
nanoseconds since the epoch and only raises `OutOfBoundsDatetime` beyond
the `Timestamp` range, approximated here by the signed 64-bit nanosecond
range. -/
def parsesAsDate : Value → Bool
  | .str s => dateShaped s
  | .num x =>
      decide (((-9223372036854775808 : Int) : Rat) < x) &&
        decide (x < ((9223372036854775808 : Int) : Rat))
  | .null => false

/-! ### Data model: DataFrame and DataProcessor state -/

/-- The in-memory table: normalized column names plus rows of cells.  Rows
are aligned positionally with `cols`. -/
structure DataFrame where
  cols : List String
  rows : List (List Value)
deriving DecidableEq, Repr

/-- Index of a column name inside the frame. -/
def DataFrame.colIdx (df : DataFrame) (c : String) : Nat :=
  df.cols.indexOf c

/-- Cell of a row at a column, missing cells defaulting to null (pandas
yields NaN for anything absent). -/
def rowCell (r : List Value) (i : Nat) : Value :=
  r.getD i .null

/-- Values of one named column, in row order. -/
def DataFrame.colValues (df : DataFrame) (c : String) : List Value :=
  df.rows.map (fun r => rowCell r (df.colIdx c))

/-- Mutable state of a `DataProcessor` instance: the loaded frame, the
normalized-to-original column-name map, the inferred type map and the four
per-type column lists. -/
structure ProcState where
  df : Option DataFrame
  originalColumns : List (String × String)
  columnTypes : List (String × CType)
  numericColumns : List String
  categoricalColumns : List String
  binaryColumns : List String
  datetimeColumns : List String
deriving DecidableEq, Repr

/-- State of a freshly constructed `DataProcessor`. -/
def ProcState.init : ProcState :=
  { df := none, originalColumns := [], columnTypes := [],
    numericColumns := [], categoricalColumns := [],
    binaryColumns := [], datetimeColumns := [] }

/-- Lookup in an association list, as Python `dict.get(key, default)`. -/
def dictGet {β : Type} (m : List (String × β)) (k : String) (dflt : β) : β :=
  match m.find? (fun p => p.1 = k) with
  | some p => p.2
  | none => dflt

/-- Lookup in an association list, as Python `dict.get(key)`. -/
def dictGet? {β : Type} (m : List (String × β)) (k : String) : Option β :=
  (m.find? (fun p => p.1 = k)).map (·.2)

/-- Python dict insertion `m[k] = v`: overwrite the value at an existing key
in place, else append the binding (insertion order is preserved). -/
def dictInsert {β : Type} (m : List (String × β)) (k : String) (v : β) :
    List (String × β) :=
  if m.any (fun p => p.1 = k) then
    m.map (fun p => if p.1 = k then (k, v) else p)
  else m ++ [(k, v)]

/-! ### Column-name normalization (`DataProcessor._normalize_column_name`) -/

/-- Replace any character outside lowercase ASCII letters, digits and
underscore by an underscore (the `re.sub` step). -/
def normChar (c : Char) : Char :=
  if (97 ≤ c.toNat ∧ c.toNat ≤ 122) ∨ (48 ≤ c.toNat ∧ c.toNat ≤ 57) ∨ c = '_'
  then c else '_'

/-- Collapse every run of underscores to a single underscore (the second
`re.sub` step); the boolean records whether the previous kept character was
an underscore. -/
def collapseUnderscores : Bool → List Char → List Char
  | _, [] => []
  | prevU, c :: cs =>
    if c = '_' then
      if prevU then collapseUnderscores true cs
      else '_' :: collapseUnderscores true cs
    else c :: collapseUnderscores false cs

/-- `DataProcessor._normalize_column_name`: strip, lowercase, replace
non-`[a-z0-9_]` by underscore, collapse underscore runs, strip underscores,
and default to `unnamed_column` when empty. -/
def normalizeColumnName (s : String) : String :=
  let cs := stripEnds pySpace s.toList
  let cs := cs.map pyLowerChar
  let cs := cs.map normChar
  let cs := collapseUnderscores false cs
  let cs := stripEnds (fun c => c = '_') cs
  if cs.isEmpty then "unnamed_column" else String.mk cs

/-! ### Column-type inference (`DataProcessor._infer_column_types`) -/

/-- `DataProcessor._is_datetime_column`: sample up to 10 non-missing values;
the column is datetime when the sample is non-empty and every sampled value
parses as a date.  Because `pd.to_datetime` accepts in-range plain numbers
as epoch timestamps, this returns true for every in-range all-numeric
column. -/
def isDatetimeColumn (vs : List Value) : Bool :=
  let sample := (vs.filter (fun v => v ≠ .null)).take 10
  !sample.isEmpty && sample.all parsesAsDate

/-- pandas numeric dtype for a column: no textual cell (a column of numbers
and missing values is stored as int64/float64; any string makes it object
dtype). -/
def isNumericDtype (vs : List Value) : Bool :=
  vs.all (fun v => match v with | .str _ => false | _ => true)

/-- The canonical binary value pairs of `_is_binary_column`. -/
def binaryPatterns : List (List String) :=
  [["yes", "no"], ["true", "false"], ["1", "0"], ["y", "n"],
   ["1.0", "0.0"], ["male", "female"], ["m", "f"]]

/-- `DataProcessor._is_binary_column`: the case-insensitive,
whitespace-trimmed distinct stringified values form a subset of size at most
two of one of the canonical pairs; or the column has numeric dtype and its
distinct values are a subset of `{0, 1}` of size at most two. -/
def isBinaryColumn (vs : List Value) : Bool :=
  let uniqueValues := pyUnique (vs.filter (fun v => v ≠ .null))
  let uniqueSet := pyUnique (uniqueValues.map (fun v => pyLower (pyStrip (pyStr v))))
  binaryPatterns.any (fun pat => uniqueSet.all (fun s => s ∈ pat) && uniqueSet.length ≤ 2) ||
    (isNumericDtype vs &&
      (uniqueValues.all (fun v => v = .num 0 || v = .num 1) && uniqueValues.length ≤ 2))

/-- Type of a single column, following the precedence of
`_infer_column_types`: datetime, then numeric dtype, then binary, then
categorical.  Numeric dtype is tested before binary, so the numeric branch
of `_is_binary_column` is never consulted by type inference. -/
def inferColumnType (vs : List Value) : CType :=
  if isDatetimeColumn vs then .datetime
  else if isNumericDtype vs then .numeric
  else if isBinaryColumn vs then .binary
  else .categorical

/-- In-place coercion a detected datetime column undergoes
(`pd.to_datetime(..., errors='coerce')`): non-parseable entries become
missing; a parseable cell is kept as-is, the retained value standing for
the timestamp it converts to (no claim under verification inspects the
cells of a datetime column). -/
def coerceDatetime (v : Value) : Value :=
  if parsesAsDate v then v else .null

/-- `DataProcessor._infer_column_types`: rebuild the type map and the four
per-type column lists, and coerce detected datetime columns in the frame. -/
def inferColumnTypes (st : ProcState) : ProcState :=
  match st.df with
  | none =>
    { st with columnTypes := [], numericColumns := [], categoricalColumns := [],
              binaryColumns := [], datetimeColumns := [] }
  | some df =>
    let typed := df.cols.map (fun c => (c, inferColumnType (df.colValues c)))
    let newRows := df.rows.map (fun r =>
      (df.cols.zip r).map (fun p =>
        if inferColumnType (df.colValues p.1) = .datetime then coerceDatetime p.2 else p.2))
    { st with
      df := some { cols := df.cols, rows := newRows },
      columnTypes := typed,
      numericColumns := (typed.filter (fun p => p.2 = .numeric)).map (·.1),
      categoricalColumns := (typed.filter (fun p => p.2 = .categorical)).map (·.1),
      binaryColumns := (typed.filter (fun p => p.2 = .binary)).map (·.1),
      datetimeColumns := (typed.filter (fun p => p.2 = .datetime)).map (·.1) }

/-! ### Loading (`DataProcessor.load_excel`) -/

/-- Raw table as `pd.read_excel` returns it: original headers plus rows. -/
structure RawTable where
  headers : List String
  rows : List (List Value)
deriving DecidableEq, Repr

/-- pandas `df.empty`: true when either axis has length zero. -/
def RawTable.isEmptyTable (t : RawTable) : Bool :=
  t.rows.length = 0 || t.headers.length = 0

/-- Result of a load attempt: the `(success, message)` pair returned to the
caller together with the processor state after the call. -/
structure LoadResult where
  success : Bool
  message : String
  state : ProcState
deriving Repr

/-- `DataProcessor.load_excel`.  The input is the outcome of the
`pd.read_excel` call: `.error` models a raised read exception (caught and
converted to a failure message), `.ok` a parsed table.  The mutation order
follows the source: `original_columns` is rebuilt before the
duplicate-normalized-name check, so that particular failure leaves the new
(partial) name map behind, while the frame and the type maps are only
touched after all validation has passed. -/
def loadExcel (st : ProcState) (input : Except String RawTable) : LoadResult :=
  match input with
  | .error e => { success := false, message := "Error reading Excel file: " ++ e, state := st }
  | .ok t =>
    if t.isEmptyTable then
      { success := false, message := "The Excel file is empty.", state := st }
    else if t.rows.length > 500 then
      { success := false,
        message := "File has " ++ toString t.rows.length ++ " rows. Maximum allowed is 500 rows.",
        state := st }
    else if t.headers.length > 20 then
      { success := false,
        message := "File has " ++ toString t.headers.length ++ " columns. Maximum allowed is 20 columns.",
        state := st }
    else if t.headers.length < 1 then
      { success := false, message := "File must have at least 1 column.", state := st }
    else
      let normalizedColumns := t.headers.map normalizeColumnName
      let newMap := t.headers.foldl
        (fun m h => dictInsert m (normalizeColumnName h) h) []
      let st1 := { st with originalColumns := newMap }
      if (pyUnique normalizedColumns).length ≠ normalizedColumns.length then
        { success := false,
          message := "Column names result in duplicates after normalization. Please ensure column names are distinct.",
          state := st1 }
      else
        let st2 := { st1 with df := some { cols := normalizedColumns, rows := t.rows } }
        { success := true, message := "File loaded successfully.",
          state := inferColumnTypes st2 }

/-! ### Intent classification (`FallbackQueryHandler._is_*_query`) -/

/-- Keyword set of `_is_summary_query`. -/
def summaryKeywords : List String :=
  ["average", "mean", "sum", "total", "count", "minimum", "maximum",
   "min", "max", "median", "std", "standard deviation", "statistics",
   "how many", "what is the"]

/-- Keyword set of `_is_visualization_query`. -/
def vizKeywords : List String :=
  ["chart", "graph", "plot", "histogram", "bar chart", "line chart",
   "scatter plot", "pie chart", "box plot", "show", "visualize",
   "display", "create a"]

/-- Keyword set of `_is_filter_query`. -/
def filterKeywords : List String :=
  ["where", "filter", "under", "over", "above", "below", "greater than",
   "less than", "equal to", "customers who", "records where"]

/-- Keyword set of `_is_comparison_query`. -/
def comparisonKeywords : List String :=
  ["compare", "comparison", "by", "across", "between", "vs", "versus"]

/-- Keyword set of `_is_correlation_query`. -/
def correlationKeywords : List String :=
  ["correlation", "relationship", "related", "correlated"]

/-- Python `any(keyword in query for keyword in keywords)`. -/
def anyKeywordIn (keywords : List String) (query : String) : Bool :=
  keywords.any (fun k => pyIn k query)

/-- The six intent categories of the rule-based classifier. -/
inductive Category
  | summary
  | visualization
  | filter
  | comparison
  | correlation
  | general
deriving DecidableEq, Repr

/-- The ordered keyword test chain of `FallbackQueryHandler.process_query`,
applied to the already lowercased and stripped query. -/
def classifyCore (q : String) : Category :=
  if anyKeywordIn summaryKeywords q then .summary
  else if anyKeywordIn vizKeywords q then .visualization
  else if anyKeywordIn filterKeywords q then .filter
  else if anyKeywordIn comparisonKeywords q then .comparison
  else if anyKeywordIn correlationKeywords q then .correlation
  else .general

/-- Intent classification of a raw query: `process_query` first computes
`query.lower().strip()` and then runs the keyword chain on it. -/
def classify (query : String) : Category :=
  classifyCore (pyStrip (pyLower query))

/-! ### Numeric helpers (pandas aggregates, idealised over rationals)

The standard rational operations of the ambient library are not
kernel-reducible, so the embedding computes sums, products and quotients
through `mkRat` and `Rat.divInt` on numerators and denominators; the
bridging lemmas `ratAdd_eq`, `ratSub_eq`, `ratMul_eq`, `ratDiv_eq` and
`ratOfNat_eq` below prove these are exactly addition, subtraction,
multiplication, division and the natural-number embedding of the
rationals. -/

/-- Rational addition via numerators and denominators. -/
def ratAdd (a b : Rat) : Rat :=
  mkRat (a.num * (b.den : Int) + b.num * (a.den : Int)) (a.den * b.den)

/-- Rational subtraction via numerators and denominators. -/
def ratSub (a b : Rat) : Rat :=
  mkRat (a.num * (b.den : Int) - b.num * (a.den : Int)) (a.den * b.den)

/-- Rational multiplication via numerators and denominators. -/
def ratMul (a b : Rat) : Rat :=
  mkRat (a.num * b.num) (a.den * b.den)

/-- Rational division via numerators and denominators (division by zero
yields zero, as in the library). -/
def ratDiv (a b : Rat) : Rat :=
  Rat.divInt (a.num * (b.den : Int)) ((a.den : Int) * b.num)

/-- Sum of a list of rationals. -/
def ratSum (l : List Rat) : Rat := l.foldl ratAdd 0

/-- The rational of a natural number. -/
def ratOfNat (n : Nat) : Rat := mkRat n 1

/-- pandas `Series.mean` over the non-missing values. -/
def pyMean (l : List Rat) : Rat := ratDiv (ratSum l) (ratOfNat l.length)

/-- Minimum of a list of rationals (callers guard non-emptiness as the
source does). -/
def listMin : List Rat → Rat
  | [] => 0
  | x :: xs => xs.foldl min x

/-- Maximum of a list of rationals. -/
def listMax : List Rat → Rat
  | [] => 0
  | x :: xs => xs.foldl max x

/-- pandas `Series.median`: middle of the sorted values, or the average of
the two middles for an even count. -/
def pyMedian (l : List Rat) : Rat :=
  let s := l.insertionSort (· ≤ ·)
  let n := s.length
  if n % 2 = 1 then s.getD (n / 2) 0
  else ratDiv (ratAdd (s.getD (n / 2 - 1) 0) (s.getD (n / 2) 0)) (ratOfNat 2)

/-- Floor of a rational, computed on its reduced fraction. -/
def ratFloor (x : Rat) : Int := Int.fdiv x.num (x.den : Int)

/-- Rational approximation of a square root (six decimal digits), standing
in for the floating-point square root inside `Series.std`. -/
def ratSqrt (q : Rat) : Rat :=
  if q ≤ 0 then 0
  else mkRat (Nat.sqrt (ratFloor (ratMul q (ratOfNat (10 ^ 12)))).toNat) (10 ^ 6)

/-- pandas `Series.std` (sample standard deviation, `ddof = 1`); callers
guard for at least two values as the source does. -/
def pyStd (l : List Rat) : Rat :=
  ratSqrt (ratDiv
    (ratSum (l.map (fun x => ratMul (ratSub x (pyMean l)) (ratSub x (pyMean l)))))
    (ratOfNat (l.length - 1)))

/-- Python `round(x)` on an exact value: round half to even.  Writing
`x = f + rem / den` with `f` the floor and `0 ≤ rem < den`, the fractional
part compares to one half as `2 * rem` compares to `den`. -/
def roundHalfEven (x : Rat) : Int :=
  let f := ratFloor x
  let rem := x.num - f * (x.den : Int)
  if 2 * rem < (x.den : Int) then f
  else if (x.den : Int) < 2 * rem then f + 1
  else if f % 2 = 0 then f else f + 1

/-- Python `round(x, 2)`. -/
def round2 (x : Rat) : Rat :=
  Rat.divInt (roundHalfEven (ratMul x (ratOfNat 100))) 100

/-- The non-missing numeric values of a column, in row order
(`df[col].dropna()` on a numeric column). -/
def numericColData (df : DataFrame) (col : String) : List Rat :=
  (df.colValues col).filterMap (fun v => match v with | .num x => some x | _ => none)

/-- Total number of missing cells of the frame
(`df.isnull().sum().sum()`). -/
def countNulls (df : DataFrame) : Nat :=
  (df.cols.map (fun c => ((df.colValues c).filter (fun v => v = .null)).length)).sum

/-- pandas `Series.value_counts()`: distinct values with their counts,
sorted by count descending; the sort is stable, ties keep first-occurrence
order. -/
def valueCounts (vals : List Value) : List (Value × Nat) :=
  ((pyUnique vals).map (fun v => (v, vals.count v))).insertionSort
    (fun a b => b.2 ≤ a.2)

/-- Most common value of a column (`value_counts().index[0]`), or the
string `None` when there are no values, as in the fallback summary
executor. -/
def mostCommon (vals : List Value) : Value :=
  match valueCounts vals with
  | [] => .str "None"
  | p :: _ => p.1

/-! ### Chart builder (`visualization.ChartGenerator`) -/

/-- A renderable chart description: the kind together with the columns it
draws.  Bin boundaries, counts and styling are rendering payload and are
abstracted away; the claims concern only whether a chart is produced at
all. -/
inductive ChartSpec
  | bar1 (col : String)
  | bar2 (x y : String)
  | histogram (col : String)
  | line (x y : String)
  | scatter (x y : String) (color : Option String)
  | pie (col : String)
  | box1 (col : String)
  | box2 (x y : String)
  | comparisonBar (cat num : String)
  | corrHeatmap (cols : List String)
deriving DecidableEq, Repr

/-- `ChartGenerator._create_bar_chart`: one column gives a binned or
value-count bar chart, two columns a grouped bar chart, anything else
fails. -/
def createBarChart (cols : List String) : Option ChartSpec :=
  match cols with
  | [col] => some (.bar1 col)
  | [c1, c2] => some (.bar2 c1 c2)
  | _ => none

/-- `ChartGenerator._create_histogram`: exactly one column, which must be
numeric. -/
def createHistogram (cols : List String) (types : List (String × CType)) :
    Option ChartSpec :=
  match cols with
  | [col] => if dictGet? types col ≠ some .numeric then none else some (.histogram col)
  | _ => none

/-- `ChartGenerator._create_line_chart`: at least two columns (the first
two are drawn). -/
def createLineChart (cols : List String) : Option ChartSpec :=
  match cols with
  | c1 :: c2 :: _ => some (.line c1 c2)
  | _ => none

/-- `ChartGenerator._create_scatter_plot`: at least two columns, a third
one colours the points. -/
def createScatterPlot (cols : List String) : Option ChartSpec :=
  match cols with
  | c1 :: c2 :: rest => some (.scatter c1 c2 rest.head?)
  | _ => none

/-- `ChartGenerator._create_pie_chart`: exactly one column, which must not
be numeric. -/
def createPieChart (cols : List String) (types : List (String × CType)) :
    Option ChartSpec :=
  match cols with
  | [col] => if dictGet? types col = some .numeric then none else some (.pie col)
  | _ => none

/-- `ChartGenerator._create_box_plot`: one numeric column, or a pair whose
second (value-axis) column is numeric. -/
def createBoxPlot (cols : List String) (types : List (String × CType)) :
    Option ChartSpec :=
  match cols with
  | [col] => if dictGet? types col ≠ some .numeric then none else some (.box1 col)
  | [x, y] => if dictGet? types y ≠ some .numeric then none else some (.box2 x y)
  | _ => none

/-- `ChartGenerator.create_chart`: empty column list fails, then the kind
string (lowercased) dispatches; an unrecognised kind falls back to a
histogram for a single numeric column and a bar chart otherwise. -/
def createChart (cols : List String) (chartType : String)
    (types : List (String × CType)) : Option ChartSpec :=
  if cols.isEmpty then none
  else
    let ct := pyLower chartType
    if ct = "bar" ∨ ct = "column" then createBarChart cols
    else if ct = "histogram" ∨ ct = "hist" then createHistogram cols types
    else if ct = "line" ∨ ct = "time_series" then createLineChart cols
    else if ct = "scatter" ∨ ct = "scatterplot" then createScatterPlot cols
    else if ct = "pie" then createPieChart cols types
    else if ct = "box" ∨ ct = "boxplot" then createBoxPlot cols types
    else
      match cols with
      | [col] =>
        if dictGet? types col = some .numeric then createHistogram cols types
        else createBarChart cols
      | _ => createBarChart cols

/-- `ChartGenerator.create_comparison_chart`: a categorical/binary column
plus a numeric one group-aggregate into a bar chart; two or more numeric
columns degrade to a correlation heatmap; otherwise a plain bar chart is
attempted. -/
def createComparisonChart (cols : List String) (types : List (String × CType)) :
    Option ChartSpec :=
  if cols.length < 2 then none
  else
    let categoricalCols := cols.filter (fun c =>
      dictGet? types c = some .categorical ∨ dictGet? types c = some .binary)
    let numericCols := cols.filter (fun c => dictGet? types c = some .numeric)
    if 1 ≤ categoricalCols.length ∧ 1 ≤ numericCols.length then
      some (.comparisonBar (categoricalCols.getD 0 "") (numericCols.getD 0 ""))
    else if 2 ≤ numericCols.length then some (.corrHeatmap numericCols)
    else createBarChart cols

/-! ### Response envelopes -/

/-- A displayed table: a list of records, each record an ordered list of
field name and value (the row dictionaries the handlers feed to
`pd.DataFrame`). -/
abbrev Record := List (String × Value)

/-- The response envelope a handler returns: the `type` tag of the Python
dictionary together with its payload. -/
inductive Response
  | error (content : String)
  | text (content : String)
  | chart (content : ChartSpec) (explanation : String)
  | combined (text : String) (dataframe : List Record)
deriving DecidableEq, Repr

/-- Whether an envelope is an error. -/
def Response.isError : Response → Bool
  | .error _ => true
  | _ => false

/-- Stand-in for the text of a Python exception raised when a handler
touches `self.data_processor.df` while no dataset is loaded; every claim is
insensitive to this text. -/
def noneTypeError : String := "NoneType object has no attribute"

/-! ### Column resolution (`FallbackQueryHandler._find_columns_in_query`) -/

/-- Replace underscores by spaces (`col.replace` in the containment test). -/
def deUnderscore (s : String) : String :=
  String.mk (s.toList.map (fun c => if c = '_' then ' ' else c))

/-- The fixed term-to-synonyms table of `_infer_columns_from_terms`. -/
def termMappings : List (String × List String) :=
  [("age", ["age"]),
   ("income", ["income", "salary", "wage"]),
   ("sales", ["sales", "revenue"]),
   ("price", ["price", "cost", "amount"]),
   ("gender", ["gender", "sex"]),
   ("region", ["region", "location", "area"]),
   ("department", ["department", "dept"]),
   ("employee", ["employee", "staff", "worker"]),
   ("customer", ["customer", "client"]),
   ("date", ["date", "time"]),
   ("status", ["status", "state"])]

/-- `FallbackQueryHandler._infer_columns_from_terms`: for each trigger term
occurring in the query, every column whose normalized or original name
contains one of its synonyms. -/
def inferColumnsFromTerms (st : ProcState) (df : DataFrame) (q : String) :
    List String :=
  termMappings.foldl
    (fun acc tm =>
      if pyIn tm.1 q then
        acc ++ df.cols.filter (fun col =>
          tm.2.any (fun pc =>
            pyIn pc (pyLower col) || pyIn pc (pyLower (dictGet st.originalColumns col ""))))
      else acc) []

/-- `FallbackQueryHandler._find_columns_in_query`: direct containment of the
de-underscored or normalized name, then of the original name, then the
synonym fallback; the final `list(set(...))` is modelled by first-occurrence
deduplication. -/
def findColumnsInQuery (st : ProcState) (df : DataFrame) (q : String) :
    List String :=
  let direct := df.cols.filter (fun col => pyIn (deUnderscore col) q || pyIn col q)
  let byOriginal := st.originalColumns.filterMap
    (fun p => if pyIn (pyLower p.2) q then some p.1 else none)
  let found := direct ++ byOriginal
  let found := if found.isEmpty then inferColumnsFromTerms st df q else found
  pyUnique found

/-! ### Threshold extraction (the age regex of the filter executors) -/

/-- Which alternative of the regex
`under (\d+)|over (\d+)|above (\d+)|below (\d+)` matched. -/
inductive ThKind
  | under
  | over
  | above
  | below
deriving DecidableEq, Repr

/-- Numeric value of a digit run. -/
def natOfDigits (ds : List Char) : Nat :=
  ds.foldl (fun a c => 10 * a + (c.toNat - 48)) 0

/-- Try to match one literal-plus-digits alternative at the head of the
text; on success return the captured number and the unconsumed suffix. -/
def tryThresholdLit (lit : List Char) (k : ThKind) (cs : List Char) :
    Option (ThKind × Nat × List Char) :=
  if lit.isPrefixOf cs then
    let rest := cs.drop lit.length
    let ds := rest.takeWhile isDigitChar
    if ds.isEmpty then none
    else some (k, natOfDigits ds, rest.drop ds.length)
  else none

/-- Try the four alternatives, in the order the regex lists them, at the
head of the text. -/
def matchThresholdAt (cs : List Char) : Option (ThKind × Nat × List Char) :=
  (tryThresholdLit "under ".toList .under cs).orElse fun _ =>
  (tryThresholdLit "over ".toList .over cs).orElse fun _ =>
  (tryThresholdLit "above ".toList .above cs).orElse fun _ =>
  tryThresholdLit "below ".toList .below cs

/-- Left-to-right, non-overlapping scan of `re.findall`; the fuel equals the
remaining text length, which every step strictly decreases, so it never runs
out before the text does. -/
def findThresholdsAux : Nat → List Char → List (ThKind × Nat)
  | 0, _ => []
  | _, [] => []
  | fuel + 1, c :: cs =>
    match matchThresholdAt (c :: cs) with
    | some (k, n, rest) => (k, n) :: findThresholdsAux fuel rest
    | none => findThresholdsAux fuel cs

/-- All matches of the age-threshold regex in the query. -/
def findThresholds (q : String) : List (ThKind × Nat) :=
  findThresholdsAux q.toList.length q.toList

/-! ### Filter executor (`FallbackQueryHandler._handle_filter_query`;
`QueryHandler._handle_filtered_query` has the identical condition logic) -/

/-- The numeric columns whose normalized or original name contains `age`,
in dataset order; the executor uses the first. -/
def ageCols (st : ProcState) : List String :=
  st.numericColumns.filter (fun col =>
    pyIn "age" (pyLower col) || pyIn "age" (pyLower (dictGet st.originalColumns col "")))

/-- One threshold filter step: `under`/`below` keep rows strictly below the
bound, `over`/`above` rows strictly above it; a missing or non-numeric cell
never satisfies a comparison, as in pandas. -/
def applyThreshold (i : Nat) (k : ThKind) (n : Nat) (rows : List (List Value)) :
    List (List Value) :=
  rows.filter (fun r =>
    match rowCell r i with
    | .num x =>
      match k with
      | .under => x < (n : Rat)
      | .below => x < (n : Rat)
      | .over => (n : Rat) < x
      | .above => (n : Rat) < x
    | _ => false)

/-- The age-threshold pass of the filter executor: when the regex matched
and an age-named numeric column exists, every match filters the rows in
sequence against the first such column; the boolean records whether any
condition was applied. -/
def thresholdPass (st : ProcState) (df : DataFrame) (q : String) :
    List (List Value) × Bool :=
  let ms := findThresholds q
  if ms.isEmpty then (df.rows, false)
  else
    match ageCols st with
    | [] => (df.rows, false)
    | ageCol :: _ =>
      let i := df.colIdx ageCol
      (ms.foldl (fun acc m => applyThreshold i m.1 m.2 acc) df.rows, true)

/-- The categorical-equality pass: for each categorical or binary column in
order, the first distinct value (stringified, lowercased) occurring in the
query filters the surviving rows to equality with it; the inner `break`
stops after one value per column, the outer loop continues to further
columns. -/
def catStep (st : ProcState) (df : DataFrame) (q : String)
    (acc : List (List Value) × Bool) (col : String) : List (List Value) × Bool :=
  let colValues := pyUnique ((df.colValues col).filter (fun v => v ≠ .null))
  match colValues.find? (fun v => pyIn (pyLower (pyStr v)) q) with
  | some v => (acc.1.filter (fun r => rowCell r (df.colIdx col) = v), true)
  | none => acc

/-- Iterating `catStep` over the categorical and binary columns, in dataset
order. -/
def catPass (st : ProcState) (df : DataFrame) (q : String)
    (start : List (List Value) × Bool) : List (List Value) × Bool :=
  (st.categoricalColumns ++ st.binaryColumns).foldl (catStep st df q) start

/-- The displayed table of matching rows: every frame column, renamed to its
original header. -/
def displayRows (st : ProcState) (df : DataFrame) (rows : List (List Value)) :
    List Record :=
  rows.map (fun r => df.cols.map (fun c =>
    (dictGet st.originalColumns c c, rowCell r (df.colIdx c))))

/-- `FallbackQueryHandler._handle_filter_query`. -/
def fbHandleFilter (st : ProcState) (q : String) : Response :=
  match st.df with
  | none => .error ("Error processing filter: " ++ noneTypeError)
  | some df =>
    let result := catPass st df q (thresholdPass st df q)
    if result.2 then
      let count := result.1.length
      if 0 < count then
        .combined ("Found " ++ toString count ++ " records matching your criteria.")
          (displayRows st df (result.1.take 20))
      else .text "No records found matching your criteria."
    else
      .error "I couldn't understand the filter conditions. Please try being more specific about what you want to filter."

/-! ### Summary executor (`FallbackQueryHandler._handle_summary_query`) -/

/-- Python-side name of a column type (the strings stored in
`column_types`). -/
def ctypeStr : CType → String
  | .numeric => "numeric"
  | .datetime => "datetime"
  | .binary => "binary"
  | .categorical => "categorical"

/-- The record the fallback summary executor emits for one resolved column:
numeric columns answer the specific aggregate the query names (average,
sum, count, min, max) or a comprehensive record; categorical and binary
columns answer a unique count or the most common value; datetime columns
produce nothing. -/
def fbSummaryColRecord (st : ProcState) (df : DataFrame) (q col : String) :
    Option Record :=
  if col ∈ df.cols then
    let origName := dictGet st.originalColumns col col
    if col ∈ st.numericColumns then
      let colData := numericColData df col
      some (
        if pyIn "average" q || pyIn "mean" q then
          [("Statistic", .str ("Average " ++ origName)),
           ("Value", .num (if 0 < colData.length then round2 (pyMean colData) else 0))]
        else if pyIn "sum" q || pyIn "total" q then
          [("Statistic", .str ("Total " ++ origName)),
           ("Value", .num (if 0 < colData.length then round2 (ratSum colData) else 0))]
        else if pyIn "count" q then
          [("Statistic", .str ("Count of " ++ origName)), ("Value", .num colData.length)]
        else if pyIn "min" q then
          [("Statistic", .str ("Minimum " ++ origName)),
           ("Value", .num (if 0 < colData.length then listMin colData else 0))]
        else if pyIn "max" q then
          [("Statistic", .str ("Maximum " ++ origName)),
           ("Value", .num (if 0 < colData.length then listMax colData else 0))]
        else
          [("Column", .str origName),
           ("Count", .num colData.length),
           ("Mean", if 0 < colData.length then .num (round2 (pyMean colData)) else .null),
           ("Min", if 0 < colData.length then .num (listMin colData) else .null),
           ("Max", if 0 < colData.length then .num (listMax colData) else .null)])
    else if col ∈ st.categoricalColumns ++ st.binaryColumns then
      let colVals := (df.colValues col).filter (fun v => v ≠ .null)
      some (
        if pyIn "count" q then
          [("Statistic", .str ("Unique values in " ++ origName)),
           ("Value", .num (pyUnique colVals).length)]
        else
          [("Statistic", .str ("Most common " ++ origName)),
           ("Value", mostCommon colVals)])
    else none
  else none

/-- `FallbackQueryHandler._handle_summary_query`. -/
def fbHandleSummary (st : ProcState) (q : String) : Response :=
  match st.df with
  | none => .error ("Error processing summary query: " ++ noneTypeError)
  | some df =>
    let columns := findColumnsInQuery st df q
    if columns.isEmpty then
      .combined "Here's a general summary of your dataset:"
        [[("Dataset Summary", .str "General Statistics"),
          ("Total Rows", .num df.rows.length),
          ("Total Columns", .num df.cols.length),
          ("Numeric Columns", .num st.numericColumns.length),
          ("Categorical Columns", .num st.categoricalColumns.length),
          ("Missing Values", .num (countNulls df))]]
    else
      let results := (columns.take 5).filterMap (fbSummaryColRecord st df q)
      if !results.isEmpty then
        .combined "Here are the statistics for the columns I found in your query:" results
      else
        .error "I couldn't find the specific columns you mentioned. Please check the column names in your data."

/-! ### Visualization, comparison, correlation, general executors -/

/-- Chart kind chosen from the query keywords, defaulting to `bar`. -/
def fbChartType (q : String) : String :=
  if pyIn "histogram" q || pyIn "distribution" q then "histogram"
  else if pyIn "line" q || pyIn "trend" q then "line"
  else if pyIn "scatter" q then "scatter"
  else if pyIn "pie" q then "pie"
  else if pyIn "box" q then "box"
  else "bar"

/-- `FallbackQueryHandler._handle_visualization_query`. -/
def fbHandleVisualization (st : ProcState) (q : String) : Response :=
  match st.df with
  | none => .error ("Error creating visualization: " ++ noneTypeError)
  | some df =>
    let columns := findColumnsInQuery st df q
    if columns.isEmpty then
      .error "I couldn't identify which columns to visualize. Please specify the data you want to see."
    else
      let chartType := fbChartType q
      match createChart columns chartType st.columnTypes with
      | some chart =>
        let colNames := columns.map (fun c => dictGet st.originalColumns c c)
        .chart chart
          ("Here's your " ++ chartType ++ " chart for " ++ String.intercalate ", " colNames ++ ":")
      | none =>
        .error "I couldn't create a chart with the specified data. Please try a different visualization request."

/-- `FallbackQueryHandler._handle_comparison_query`. -/
def fbHandleComparison (st : ProcState) (q : String) : Response :=
  match st.df with
  | none => .error ("Error creating comparison: " ++ noneTypeError)
  | some df =>
    let columns := findColumnsInQuery st df q
    if columns.length < 2 then
      .error "I need at least two columns to make a comparison. Please specify what you want to compare."
    else
      match createComparisonChart columns st.columnTypes with
      | some chart =>
        let colNames := columns.map (fun c => dictGet st.originalColumns c c)
        .chart chart ("Comparison of " ++ String.intercalate " and " colNames ++ ":")
      | none => .error "I couldn't create a comparison chart with the specified columns."

/-- `FallbackQueryHandler._handle_correlation_query`: fewer than two numeric
columns dataset-wide is an error; otherwise the correlation matrix over all
numeric columns is rendered as a heatmap.  The query text is never
consulted. -/
def fbHandleCorrelation (st : ProcState) (q : String) : Response :=
  if st.numericColumns.length < 2 then
    .error "I need at least two numeric columns to calculate correlations."
  else
    match st.df with
    | none => .error ("Error calculating correlations: " ++ noneTypeError)
    | some _ =>
      .chart (.corrHeatmap st.numericColumns)
        "Here's the correlation matrix showing relationships between numeric variables:"

/-- `FallbackQueryHandler._handle_general_query`.  The overview text of the
source quotes two example questions; the quotes are elided here, no claim
inspects this string. -/
def fbHandleGeneral (st : ProcState) (q : String) : Response :=
  match st.df with
  | none => .error ("Error processing query: " ++ noneTypeError)
  | some df =>
    let columns := findColumnsInQuery st df q
    let infoData := (columns.take 5).filterMap (fun col =>
      if col ∈ df.cols then
        some [("Column", .str (dictGet st.originalColumns col col)),
              ("Type", .str (match dictGet? st.columnTypes col with
                             | some t => ctypeStr t
                             | none => "unknown")),
              ("Non-null Count", .num ((df.colValues col).filter (fun v => v ≠ .null)).length),
              ("Unique Values", .num (pyUnique ((df.colValues col).filter (fun v => v ≠ .null))).length)]
      else none)
    if !columns.isEmpty && !infoData.isEmpty then
      .combined "Here's information about the columns you mentioned:" infoData
    else
      .combined "I'm not sure exactly what you're looking for. Here's a general overview of your dataset. Try asking specific questions such as asking for the average age or for a bar chart of sales by region."
        [[("Total Rows", .num df.rows.length),
          ("Total Columns", .num df.cols.length),
          ("Numeric Columns", .num st.numericColumns.length),
          ("Categorical Columns", .num st.categoricalColumns.length)]]

/-! ### Dispatch (`FallbackQueryHandler.process_query`) -/

/-- Dispatch on the classified category; the chain of `elif` tests in
`process_query` is exactly the chain inside `classifyCore`. -/
def dispatch (st : ProcState) (q : String) : Response :=
  match classifyCore q with
  | .summary => fbHandleSummary st q
  | .visualization => fbHandleVisualization st q
  | .filter => fbHandleFilter st q
  | .comparison => fbHandleComparison st q
  | .correlation => fbHandleCorrelation st q
  | .general => fbHandleGeneral st q

/-- `FallbackQueryHandler.process_query`: lowercase and strip the query
once, then classify and execute. -/
def processQuery (st : ProcState) (query : String) : Response :=
  dispatch st (pyStrip (pyLower query))

/-! ### AI-path summary executor (`QueryHandler._handle_summary_query`) -/

/-- The per-column statistics record of the AI-assisted summary executor
for a numeric column: count, mean, median, min, max need at least one
non-missing value, the sample standard deviation needs at least two;
otherwise the field is reported as absent (`None`). -/
def qhNumericRecord (origName : String) (colData : List Rat) : Record :=
  [("Column", .str origName),
   ("Count", .num colData.length),
   ("Mean", if 0 < colData.length then .num (round2 (pyMean colData)) else .null),
   ("Median", if 0 < colData.length then .num (round2 (pyMedian colData)) else .null),
   ("Min", if 0 < colData.length then .num (listMin colData) else .null),
   ("Max", if 0 < colData.length then .num (listMax colData) else .null),
   ("Std", if 1 < colData.length then .num (round2 (pyStd colData)) else .null)]

/-- The per-column record for a categorical or binary column. -/
def qhCatRecord (origName : String) (colVals : List Value) : Record :=
  let vc := valueCounts colVals
  [("Column", .str origName),
   ("Unique_Values", .num vc.length),
   ("Most_Common", match vc with | [] => .null | p :: _ => p.1),
   ("Most_Common_Count", match vc with | [] => .null | p :: _ => .num p.2),
   ("Total_Count", .num colVals.length)]

/-- `QueryHandler._handle_summary_query`, given the columns the intent
analysis resolved.  The natural-language explanation is produced by an
external LLM call; its deterministic fallback text is used here. -/
def qhHandleSummary (st : ProcState) (query : String) (columns : List String) :
    Response :=
  match st.df with
  | none => .error ("Error processing summary query: " ++ noneTypeError)
  | some df =>
    let results := columns.filterMap (fun col =>
      if col ∈ df.cols then
        let origName := dictGet st.originalColumns col col
        if col ∈ st.numericColumns then
          some (qhNumericRecord origName (numericColData df col))
        else if col ∈ st.categoricalColumns ++ st.binaryColumns then
          some (qhCatRecord origName ((df.colValues col).filter (fun v => v ≠ .null)))
        else none
      else none)
    if !results.isEmpty then
      .combined ("Here are the results for your query about " ++ query ++ ":") results
    else
      .error "I couldn't find the relevant columns to calculate statistics. Please check your question."

/-! ### Extracted filter conditions (for the C4 analysis) and concrete example states -/

/-- Example state with two numeric columns.  Built directly: load-time
inference types an in-range all-numeric column as datetime, so numeric
columns of the running program arise from values `pd.to_datetime` rejects
(out-of-range magnitudes) or from all-missing columns; this state stands
for such a processor state. -/
def corrExState : ProcState :=
  { df := some { cols := ["a", "b"], rows := [[.num 1, .num 2], [.num 3, .num 5]] },
    originalColumns := [("a", "A"), ("b", "B")],
    columnTypes := [("a", .numeric), ("b", .numeric)],
    numericColumns := ["a", "b"],
    categoricalColumns := [], binaryColumns := [], datetimeColumns := [] }

/-- Example state with exactly one numeric column (built directly, like
`corrExState`). -/
def oneNumState : ProcState :=
  { df := some { cols := ["a", "name"], rows := [[.num 1, .str "x"]] },
    originalColumns := [("a", "A"), ("name", "Name")],
    columnTypes := [("a", .numeric), ("name", .categorical)],
    numericColumns := ["a"],
    categoricalColumns := ["name"], binaryColumns := [], datetimeColumns := [] }

/-- Prior state for the C6 scenario: a dataset with one numeric column is
already loaded. -/
def priorState : ProcState :=
  { df := some { cols := ["a"], rows := [[.num 1]] },
    originalColumns := [("a", "A")],
    columnTypes := [("a", .numeric)],
    numericColumns := ["a"],
    categoricalColumns := [], binaryColumns := [], datetimeColumns := [] }

/-- A table whose two headers both normalize to `b`. -/
def dupHeaderTable : RawTable :=
  { headers := ["B", "B?"], rows := [[.num 1, .num 2]] }

/-- The normalized-to-original header map `load_excel` rebuilds from a
table's headers before the duplicate-normalized-name check. -/
def headerMap (t : RawTable) : List (String × String) :=
  t.headers.foldl (fun m h => dictInsert m (normalizeColumnName h) h) []

/-- Example state holding one numeric column with a single value (built
directly, like `corrExState`). -/
def oneValState : ProcState :=
  { df := some { cols := ["v"], rows := [[.num 5]] },
    originalColumns := [("v", "V")],
    columnTypes := [("v", .numeric)],
    numericColumns := ["v"],
    categoricalColumns := [], binaryColumns := [], datetimeColumns := [] }

/-- Frame with a single numeric `age` column holding the given values. -/
def ageFrame (ages : List Rat) : DataFrame :=
  { cols := ["age"], rows := ages.map (fun a => [Value.num a]) }

/-- Processor state holding `ageFrame` as a numeric column — the state the
filter executor presumes.  Built directly: loading an in-range integer age
column actually types it datetime (see the C2 bug conjuncts), so the
executor-level behaviour is analysed on this state. -/
def ageState (ages : List Rat) : ProcState :=
  { df := some (ageFrame ages),
    originalColumns := [("age", "Age")],
    columnTypes := [("age", .numeric)],
    numericColumns := ["age"],
    categoricalColumns := [], binaryColumns := [], datetimeColumns := [] }

/-- The table of the claim scenario: an `Age` column holding 25, 30, 35,
28, 42. -/
def exAgeTable : RawTable :=
  { headers := ["Age"],
    rows := [[.num 25], [.num 30], [.num 35], [.num 28], [.num 42]] }

/-- State after loading `exAgeTable`. -/
def exAgeState : ProcState :=
  (loadExcel ProcState.init (.ok exAgeTable)).state

/-- Directly-built state with two numeric columns whose names both contain
`age`; the filter executor must use the first one (`wage`). -/
def twoAgeColState : ProcState :=
  { df := some { cols := ["wage", "age"], rows := [[.num 10, .num 70], [.num 50, .num 5]] },
    originalColumns := [("wage", "Wage"), ("age", "Age")],
    columnTypes := [("wage", .numeric), ("age", .numeric)],
    numericColumns := ["wage", "age"],
    categoricalColumns := [], binaryColumns := [], datetimeColumns := [] }

/-- A single filter condition the executor can apply: a numeric threshold
on a column index, or an equality with a value. -/
inductive FilterCond
  | threshold (i : Nat) (k : ThKind) (n : Nat)
  | equality (i : Nat) (v : Value)
deriving DecidableEq, Repr

/-- Whether a row satisfies a condition (missing cells satisfy nothing, as
in pandas). -/
def rowSat (r : List Value) : FilterCond → Bool
  | .threshold i k n =>
    match rowCell r i with
    | .num x =>
      match k with
      | .under => x < (n : Rat)
      | .below => x < (n : Rat)
      | .over => (n : Rat) < x
      | .above => (n : Rat) < x
    | _ => false
  | .equality i v => rowCell r i = v

/-- The threshold conditions the executor extracts: one per regex match,
all against the first age-named numeric column, none when no column
qualifies. -/
def thresholdConds (st : ProcState) (df : DataFrame) (q : String) :
    List FilterCond :=
  let ms := findThresholds q
  if ms.isEmpty then []
  else
    match ageCols st with
    | [] => []
    | c :: _ => ms.map (fun m => .threshold (df.colIdx c) m.1 m.2)

/-- The equality condition one categorical or binary column contributes:
its first distinct value occurring in the query, if any. -/
def catCondOf (st : ProcState) (df : DataFrame) (q : String) (col : String) :
    Option FilterCond :=
  ((pyUnique ((df.colValues col).filter (fun v => v ≠ .null))).find?
    (fun v => pyIn (pyLower (pyStr v)) q)).map (fun v => .equality (df.colIdx col) v)

/-- All equality conditions, one per matching categorical or binary
column. -/
def catConds (st : ProcState) (df : DataFrame) (q : String) : List FilterCond :=
  (st.categoricalColumns ++ st.binaryColumns).filterMap (catCondOf st df q)

/-- Every condition the filter executor extracts from a query. -/
def extractConds (st : ProcState) (df : DataFrame) (q : String) :
    List FilterCond :=
  thresholdConds st df q ++ catConds st df q

/-- Modelled from the claim's wording, not from the source: keep at most
one numeric-threshold condition and at most one categorical-equality
condition (the first of each), ignoring all subsequent matches. -/
def specFilterOneCondition (st : ProcState) (df : DataFrame) (q : String) :
    List (List Value) :=
  df.rows.filter (fun r =>
    ((thresholdConds st df q).take 1 ++ (catConds st df q).take 1).all (rowSat r))

/-- Frame with two categorical columns. -/
def catFrame : DataFrame :=
  { cols := ["a", "b"], rows := [[.str "x", .str "p"], [.str "x", .str "q"]] }

/-- State after loading the two-categorical-column table. -/
def catState : ProcState :=
  (loadExcel ProcState.init
    (.ok { headers := ["A", "B"],
           rows := [[.str "x", .str "p"], [.str "x", .str "q"]] })).state

/-! ## Helper lemmas -/

theorem mem_of_mem_dropWhile {α : Type} {p : α → Bool} :
    ∀ {l : List α} {a : α}, a ∈ l.dropWhile p → a ∈ l := by
  intro l
  induction l with
  | nil => intro a h; simpa [List.dropWhile] using h
  | cons x xs ih =>
    intro a h
    by_cases hx : p x
    · simp only [List.dropWhile_cons, hx, if_true] at h
      exact List.mem_cons_of_mem x (ih h)
    · simp only [List.dropWhile_cons, hx, if_false] at h
      exact h

theorem mem_of_mem_stripEnds {p : Char → Bool} {cs : List Char} {c : Char}
    (h : c ∈ stripEnds p cs) : c ∈ cs := by
  unfold stripEnds at h
  rw [List.mem_reverse] at h
  have h1 := mem_of_mem_dropWhile h
  rw [List.mem_reverse] at h1
  exact mem_of_mem_dropWhile h1

theorem pyUniqueAux_eq_of_le {α : Type} [DecidableEq α] :
    ∀ (fuel1 fuel2 : Nat) (l : List α), l.length ≤ fuel1 → l.length ≤ fuel2 →
      pyUniqueAux fuel1 l = pyUniqueAux fuel2 l := by
  intro fuel1
  induction fuel1 with
  | zero =>
    intro fuel2 l hl1 _
    have : l = [] := List.length_eq_zero.mp (Nat.le_zero.mp hl1)
    subst this
    cases fuel2 <;> rfl
  | succ fuel1 ih =>
    intro fuel2 l hl1 hl2
    match l with
    | [] => cases fuel2 <;> rfl
    | x :: xs =>
      match fuel2 with
      | fuel2 + 1 =>
        simp only [pyUniqueAux]
        rw [ih fuel2 _
          (le_trans (List.length_filter_le _ _) (Nat.succ_le_succ_iff.mp hl1))
          (le_trans (List.length_filter_le _ _) (Nat.succ_le_succ_iff.mp hl2))]

theorem pyUniqueAux_adequate {α : Type} [DecidableEq α]
    (fuel : Nat) (l : List α) (hl : l.length ≤ fuel) :
    pyUniqueAux fuel l = pyUnique l :=
  pyUniqueAux_eq_of_le fuel l.length l hl le_rfl

theorem pyUnique_nil {α : Type} [DecidableEq α] : pyUnique ([] : List α) = [] := rfl

theorem pyUnique_cons {α : Type} [DecidableEq α] (x : α) (xs : List α) :
    pyUnique (x :: xs) = x :: pyUnique (xs.filter (fun y => y ≠ x)) := by
  show pyUniqueAux (x :: xs).length (x :: xs) = _
  simp only [List.length_cons, pyUniqueAux]
  rw [pyUniqueAux_adequate xs.length _ (List.length_filter_le _ _)]

theorem mem_pyUnique {α : Type} [DecidableEq α] :
    ∀ {l : List α} {x : α}, x ∈ pyUnique l → x ∈ l := by
  have key : ∀ (n : Nat) (l : List α), l.length = n → ∀ x : α, x ∈ pyUnique l → x ∈ l := by
    intro n
    induction n using Nat.strong_induction_on with
    | _ n ih =>
      intro l hn x h
      match l with
      | [] => simpa [pyUnique_nil] using h
      | y :: ys =>
        rw [pyUnique_cons] at h
        rcases List.mem_cons.mp h with h | h
        · simp [h]
        · have hlt : (ys.filter (fun z => z ≠ y)).length < n := by
            subst hn
            simp only [List.length_cons]
            exact Nat.lt_succ_of_le (List.length_filter_le _ _)
          have := ih _ hlt _ rfl _ h
          exact List.mem_cons_of_mem y (List.mem_of_mem_filter this)
  exact fun {l x} h => key l.length l rfl x h

theorem nodup_pyUnique {α : Type} [DecidableEq α] :
    ∀ (l : List α), (pyUnique l).Nodup := by
  have key : ∀ (n : Nat) (l : List α), l.length = n → (pyUnique l).Nodup := by
    intro n
    induction n using Nat.strong_induction_on with
    | _ n ih =>
      intro l hn
      match l with
      | [] => simp [pyUnique_nil]
      | y :: ys =>
        rw [pyUnique_cons]
        have hlt : (ys.filter (fun z => z ≠ y)).length < n := by
          subst hn
          simp only [List.length_cons]
          exact Nat.lt_succ_of_le (List.length_filter_le _ _)
        refine List.nodup_cons.mpr ⟨?_, ih _ hlt _ rfl⟩
        intro hmem
        have hne := List.of_mem_filter (mem_pyUnique hmem)
        simp at hne
  exact fun l => key l.length l rfl

/-! ## C1: strict priority order of intent classification -/

/-- C1: the intent classifier tests its keyword sets in the strict priority
order summary, visualization, filter, comparison, correlation, general, and
the first category whose keyword set intersects the lowercased (and
stripped) question wins; in particular the question
`What is the average price, show it as a chart`, which contains both a
summary keyword and a visualization keyword, classifies as summary. -/
theorem classify_strict_priority :
    (∀ q : String,
      (classify q = .summary ↔
        anyKeywordIn summaryKeywords (pyStrip (pyLower q)) = true) ∧
      (classify q = .visualization ↔
        (anyKeywordIn summaryKeywords (pyStrip (pyLower q)) = false ∧
         anyKeywordIn vizKeywords (pyStrip (pyLower q)) = true)) ∧
      (classify q = .filter ↔
        (anyKeywordIn summaryKeywords (pyStrip (pyLower q)) = false ∧
         anyKeywordIn vizKeywords (pyStrip (pyLower q)) = false ∧
         anyKeywordIn filterKeywords (pyStrip (pyLower q)) = true)) ∧
      (classify q = .comparison ↔
        (anyKeywordIn summaryKeywords (pyStrip (pyLower q)) = false ∧
         anyKeywordIn vizKeywords (pyStrip (pyLower q)) = false ∧
         anyKeywordIn filterKeywords (pyStrip (pyLower q)) = false ∧
         anyKeywordIn comparisonKeywords (pyStrip (pyLower q)) = true)) ∧
      (classify q = .correlation ↔
        (anyKeywordIn summaryKeywords (pyStrip (pyLower q)) = false ∧
         anyKeywordIn vizKeywords (pyStrip (pyLower q)) = false ∧
         anyKeywordIn filterKeywords (pyStrip (pyLower q)) = false ∧
         anyKeywordIn comparisonKeywords (pyStrip (pyLower q)) = false ∧
         anyKeywordIn correlationKeywords (pyStrip (pyLower q)) = true)) ∧
      (classify q = .general ↔
        (anyKeywordIn summaryKeywords (pyStrip (pyLower q)) = false ∧
         anyKeywordIn vizKeywords (pyStrip (pyLower q)) = false ∧
         anyKeywordIn filterKeywords (pyStrip (pyLower q)) = false ∧
         anyKeywordIn comparisonKeywords (pyStrip (pyLower q)) = false ∧
         anyKeywordIn correlationKeywords (pyStrip (pyLower q)) = false))) ∧
    anyKeywordIn summaryKeywords
      (pyStrip (pyLower "What is the average price, show it as a chart")) = true ∧
    anyKeywordIn vizKeywords
      (pyStrip (pyLower "What is the average price, show it as a chart")) = true ∧
    classify "What is the average price, show it as a chart" = .summary := by
  refine ⟨fun q => ?_, by decide, by decide, by decide⟩
  unfold classify classifyCore
  cases h1 : anyKeywordIn summaryKeywords (pyStrip (pyLower q)) <;>
    cases h2 : anyKeywordIn vizKeywords (pyStrip (pyLower q)) <;>
      cases h3 : anyKeywordIn filterKeywords (pyStrip (pyLower q)) <;>
        cases h4 : anyKeywordIn comparisonKeywords (pyStrip (pyLower q)) <;>
          cases h5 : anyKeywordIn correlationKeywords (pyStrip (pyLower q)) <;>
            simp [h1, h2, h3, h4, h5]

/-! ## C10: case and whitespace invariance of fallback processing -/

/-- C10: fallback query processing is invariant under letter case and
surrounding whitespace of the question: two query strings that agree after
lowercasing and stripping classify identically and produce the same
response from the dispatched executor. -/
theorem processQuery_case_whitespace_invariant :
    ∀ (st : ProcState) (q1 q2 : String),
      pyStrip (pyLower q1) = pyStrip (pyLower q2) →
      classify q1 = classify q2 ∧ processQuery st q1 = processQuery st q2 := by
  intro st q1 q2 h
  constructor
  · unfold classify
    rw [h]
  · unfold processQuery
    rw [h]

/-- Witness for C10 at a concrete pair of queries differing only in case
and surrounding whitespace. -/
theorem processQuery_case_whitespace_invariant_witness :
    pyStrip (pyLower "  Show A Chart ") = pyStrip (pyLower "show a chart") ∧
    processQuery ProcState.init "  Show A Chart " =
      processQuery ProcState.init "show a chart" :=
  ⟨by decide,
   (processQuery_case_whitespace_invariant ProcState.init
      "  Show A Chart " "show a chart" (by decide)).2⟩

/-! ## C5: correlation requires two numeric columns dataset-wide -/

/-- C5: the correlation executor returns an error envelope exactly when the
dataset has fewer than two numeric columns; the query text never influences
the outcome; on success the heatmap covers all numeric columns of the
dataset; and through the dispatcher, every correlation-classified query on
a dataset with fewer than two numeric columns yields the error. -/
theorem correlation_needs_two_numeric :
    ∀ (st : ProcState) (df : DataFrame) (q q2 : String),
      st.df = some df →
      ((fbHandleCorrelation st q).isError = true ↔ st.numericColumns.length < 2) ∧
      fbHandleCorrelation st q = fbHandleCorrelation st q2 ∧
      (2 ≤ st.numericColumns.length →
        fbHandleCorrelation st q =
          .chart (.corrHeatmap st.numericColumns)
            "Here's the correlation matrix showing relationships between numeric variables:") ∧
      (st.numericColumns.length < 2 →
        fbHandleCorrelation st q =
          .error "I need at least two numeric columns to calculate correlations.") ∧
      (classify q = .correlation → st.numericColumns.length < 2 →
        processQuery st q =
          .error "I need at least two numeric columns to calculate correlations.") := by
  intro st df q q2 hdf
  have hcorr : ∀ q' : String,
      fbHandleCorrelation st q' =
        if st.numericColumns.length < 2 then
          .error "I need at least two numeric columns to calculate correlations."
        else
          .chart (.corrHeatmap st.numericColumns)
            "Here's the correlation matrix showing relationships between numeric variables:" := by
    intro q'
    unfold fbHandleCorrelation
    by_cases hlen : st.numericColumns.length < 2
    · simp [hlen]
    · simp [hlen, hdf]
  refine ⟨?_, by rw [hcorr q, hcorr q2], ?_, ?_, ?_⟩
  · rw [hcorr q]
    by_cases hlen : st.numericColumns.length < 2 <;>
      simp [hlen, Response.isError]
  · intro hge
    rw [hcorr q]
    simp [Nat.not_lt_of_le hge]
  · intro hlt
    rw [hcorr q]
    simp [hlt]
  · intro hcls hlt
    unfold classify at hcls
    unfold processQuery dispatch
    rw [hcls, hcorr (pyStrip (pyLower q))]
    simp [hlt]

/-- Witness for C5: on a loaded two-numeric-column dataset the correlation
executor succeeds over both columns, and on a one-numeric-column dataset a
correlation-classified query errors. -/
theorem correlation_needs_two_numeric_witness :
    ((fbHandleCorrelation corrExState "correlation").isError = true ↔
      corrExState.numericColumns.length < 2) ∧
    processQuery oneNumState "correlation of things" =
      .error "I need at least two numeric columns to calculate correlations." :=
  ⟨(correlation_needs_two_numeric corrExState
      { cols := ["a", "b"], rows := [[.num 1, .num 2], [.num 3, .num 5]] }
      "correlation" "x" (by decide)).1,
   (correlation_needs_two_numeric oneNumState
      { cols := ["a", "name"], rows := [[.num 1, .str "x"]] }
      "correlation of things" "x" (by decide)).2.2.2.2 (by decide) (by decide)⟩

/-! ## C9: the chart builder rejects structurally invalid requests -/

/-- C9: `create_chart` returns no chart whenever the requested kind is
structurally invalid for the given columns: a histogram with a column count
other than one or with a non-numeric column; a pie chart with a column
count other than one or with a numeric column; a scatter or line chart with
fewer than two columns; and a box plot whose value axis (the single column,
or the second of two) is not numeric. -/
theorem createChart_none_when_invalid :
    ∀ (cols : List String) (types : List (String × CType)),
      (cols.length ≠ 1 → createChart cols "histogram" types = none) ∧
      (∀ c, cols = [c] → dictGet? types c ≠ some .numeric →
        createChart cols "histogram" types = none) ∧
      (cols.length ≠ 1 → createChart cols "pie" types = none) ∧
      (∀ c, cols = [c] → dictGet? types c = some .numeric →
        createChart cols "pie" types = none) ∧
      (cols.length < 2 → createChart cols "scatter" types = none) ∧
      (cols.length < 2 → createChart cols "line" types = none) ∧
      (∀ c, cols = [c] → dictGet? types c ≠ some .numeric →
        createChart cols "box" types = none) ∧
      (∀ x y, cols = [x, y] → dictGet? types y ≠ some .numeric →
        createChart cols "box" types = none) := by
  intro cols types
  have hhist : pyLower "histogram" = "histogram" := rfl
  have hpie : pyLower "pie" = "pie" := rfl
  have hsc : pyLower "scatter" = "scatter" := rfl
  have hline : pyLower "line" = "line" := rfl
  have hbox : pyLower "box" = "box" := rfl
  refine ⟨?_, ?_, ?_, ?_, ?_, ?_, ?_, ?_⟩
  · intro hne
    unfold createChart
    rcases cols with _ | ⟨c, _ | ⟨d, rest⟩⟩ <;>
      simp_all [createHistogram, pyLower]
  · rintro c rfl hty
    unfold createChart
    simp_all [createHistogram, pyLower]
  · intro hne
    unfold createChart
    rcases cols with _ | ⟨c, _ | ⟨d, rest⟩⟩ <;>
      simp_all [createPieChart, pyLower]
  · rintro c rfl hty
    unfold createChart
    simp_all [createPieChart, pyLower]
  · intro hlt
    unfold createChart
    rcases cols with _ | ⟨c, _ | ⟨d, rest⟩⟩ <;>
      simp_all [createScatterPlot, pyLower] <;> omega
  · intro hlt
    unfold createChart
    rcases cols with _ | ⟨c, _ | ⟨d, rest⟩⟩ <;>
      simp_all [createLineChart, pyLower] <;> omega
  · rintro c rfl hty
    unfold createChart
    simp_all [createBoxPlot, pyLower]
  · rintro x y rfl hty
    unfold createChart
    simp_all [createBoxPlot, pyLower]

/-- Witness for C9 at concrete invalid requests: a two-column histogram, a
pie chart on a numeric column, a one-column scatter plot and a box plot
with a categorical value axis all yield no chart. -/
theorem createChart_none_when_invalid_witness :
    createChart ["a", "b"] "histogram" [("a", .numeric), ("b", .numeric)] = none ∧
    createChart ["a"] "pie" [("a", .numeric)] = none ∧
    createChart ["a"] "scatter" [("a", .numeric)] = none ∧
    createChart ["a"] "box" [("a", .categorical)] = none :=
  ⟨(createChart_none_when_invalid ["a", "b"] [("a", .numeric), ("b", .numeric)]).1
      (by decide),
   (createChart_none_when_invalid ["a"] [("a", .numeric)]).2.2.2.1 "a" rfl (by decide),
   (createChart_none_when_invalid ["a"] [("a", .numeric)]).2.2.2.2.1 (by decide),
   (createChart_none_when_invalid ["a"] [("a", .categorical)]).2.2.2.2.2.2.1 "a" rfl
      (by decide)⟩

/-! ## C3: binary type detection -/

theorem pyLowerChar_eq_self_of_dateChar {c : Char}
    (h : (isDigitChar c || c = '-') = true) : pyLowerChar c = c := by
  unfold pyLowerChar
  rw [if_neg]
  rintro ⟨h1, h2⟩
  rw [Bool.or_eq_true] at h
  rcases h with hd | hdash
  · simp only [isDigitChar, decide_eq_true_eq] at hd
    omega
  · have hc : c = '-' := by simpa using hdash
    subst hc
    exact absurd h1 (by decide)

/-- A string containing (after stripping and lowercasing) a character that
is neither a digit nor a dash cannot be date-shaped. -/
theorem dateShaped_false_of_bad_char (s : String) (c : Char)
    (hc : c ∈ (pyLower (pyStrip s)).toList)
    (hbad : (isDigitChar c || c = '-') = false) : dateShaped s = false := by
  cases hds : dateShaped s with
  | false => rfl
  | true =>
    exfalso
    have hall : s.toList.all (fun c => isDigitChar c || c = '-') = true := by
      unfold dateShaped at hds
      simp only [Bool.and_eq_true] at hds
      exact hds.1.1.2
    have hlist : (pyLower (pyStrip s)).toList =
        (stripEnds pySpace s.toList).map pyLowerChar := rfl
    rw [hlist] at hc
    obtain ⟨c0, hc0, rfl⟩ := List.mem_map.mp hc
    have hc0s : c0 ∈ s.toList := mem_of_mem_stripEnds hc0
    have hgood := List.all_eq_true.mp hall c0 hc0s
    rw [pyLowerChar_eq_self_of_dateChar hgood] at hbad
    rw [hgood] at hbad
    exact Bool.true_eq_false.mp hbad

theorem length_le_two_of_nodup_mem_pair {α : Type} [DecidableEq α]
    (l : List α) (a b : α) (hnd : l.Nodup) (hmem : ∀ x ∈ l, x = a ∨ x = b) :
    l.length ≤ 2 := by
  have hsub : l ⊆ [a, b] := by
    intro x hx
    rcases hmem x hx with rfl | rfl <;> simp
  simpa using (hnd.subperm hsub).length_le

/-- C3 (amended): a non-numeric column whose trimmed lowercased values all
read yes or no (both actually occurring as strings) is classified binary; a
column with values 0, 1, 2 is not classified binary — but neither numeric:
`pd.to_datetime` accepts in-range plain numbers as epoch timestamps and the
datetime test precedes every other, so the column is classified datetime;
likewise a column with distinct values 0 and 1 passes the standalone binary
test yet is classified datetime, the binary branch being unreachable for it
(both the datetime test and the numeric-dtype test precede it). -/
theorem binary_type_detection :
    (∀ vs : List Value,
      (∀ v ∈ vs, v = .null ∨ ∃ s, v = .str s ∧
          (pyLower (pyStrip s) = "yes" ∨ pyLower (pyStrip s) = "no")) →
      (∃ s, Value.str s ∈ vs) →
      inferColumnType vs = .binary) ∧
    (inferColumnType [.num 0, .num 1, .num 2] = .datetime ∧
      isBinaryColumn [.num 0, .num 1, .num 2] = false) ∧
    (inferColumnType [.num 0, .num 1] = .datetime ∧
      isBinaryColumn [.num 0, .num 1] = true) := by
  refine ⟨?_, by constructor <;> decide, by constructor <;> decide⟩
  intro vs hall hex
  have hpf : ∀ v ∈ vs, v ≠ Value.null → parsesAsDate v = false := by
    intro v hv hnn
    rcases hall v hv with rfl | ⟨s, rfl, hsl⟩
    · exact absurd rfl hnn
    · show dateShaped s = false
      rcases hsl with h | h
      · exact dateShaped_false_of_bad_char s 'y' (by rw [h]; decide) (by decide)
      · exact dateShaped_false_of_bad_char s 'n' (by rw [h]; decide) (by decide)
  have hyes : ∀ v ∈ vs, v ≠ Value.null →
      pyLower (pyStrip (pyStr v)) = "yes" ∨ pyLower (pyStrip (pyStr v)) = "no" := by
    intro v hv hnn
    rcases hall v hv with rfl | ⟨s, rfl, hsl⟩
    · exact absurd rfl hnn
    · exact hsl
  have hdt : isDatetimeColumn vs = false := by
    unfold isDatetimeColumn
    cases hsamp : (vs.filter (fun v => v ≠ Value.null)).take 10 with
    | nil => simp [hsamp]
    | cons v rest =>
      have hv : v ∈ (vs.filter (fun v => v ≠ Value.null)).take 10 := by
        rw [hsamp]; exact List.mem_cons_self _ _
      have hvf := (List.take_sublist 10 _).subset hv
      have hvv : v ∈ vs := List.mem_of_mem_filter hvf
      have hnn : v ≠ Value.null := by simpa using List.of_mem_filter hvf
      simp [hsamp, hpf v hvv hnn]
  have hnum : isNumericDtype vs = false := by
    obtain ⟨s0, hs0⟩ := hex
    unfold isNumericDtype
    cases hb : vs.all (fun v => match v with | .str _ => false | _ => true) with
    | false => rfl
    | true =>
      exfalso
      have := List.all_eq_true.mp hb _ hs0
      simp at this
  have hmempair : ∀ x ∈ pyUnique
      ((pyUnique (vs.filter (fun v => v ≠ Value.null))).map
        (fun v => pyLower (pyStrip (pyStr v)))),
      x = "yes" ∨ x = "no" := by
    intro x hx
    have hx1 := mem_pyUnique hx
    obtain ⟨v, hv, rfl⟩ := List.mem_map.mp hx1
    have hv1 := mem_pyUnique hv
    have hvv : v ∈ vs := List.mem_of_mem_filter hv1
    have hnn : v ≠ Value.null := by simpa using List.of_mem_filter hv1
    exact hyes v hvv hnn
  have hbin : isBinaryColumn vs = true := by
    unfold isBinaryColumn
    rw [Bool.or_eq_true]
    left
    rw [List.any_eq_true]
    refine ⟨["yes", "no"], by simp [binaryPatterns], ?_⟩
    rw [Bool.and_eq_true]
    constructor
    · rw [List.all_eq_true]
      intro x hx
      rcases hmempair x hx with rfl | rfl <;> simp
    · rw [decide_eq_true_eq]
      exact length_le_two_of_nodup_mem_pair _ "yes" "no" (nodup_pyUnique _) hmempair
  unfold inferColumnType
  simp [hdt, hnum, hbin]

/-- Counterexample for C3 as stated: a column with values 0, 1, 2 is
classified datetime, not numeric (`pd.to_datetime` accepts in-range plain
numbers and the datetime test runs first), and a column with distinct
values 0 and 1 is likewise classified datetime, not binary. -/
theorem binary_type_detection_counterexample :
    inferColumnType [Value.num 0, Value.num 1, Value.num 2] = .datetime ∧
    CType.datetime ≠ .numeric ∧
    inferColumnType [Value.num 0, Value.num 1] = .datetime ∧
    CType.datetime ≠ .binary := by
  refine ⟨by decide, by decide, by decide, by decide⟩

/-- Witness for C3 on a concrete yes/no column with mixed case and
whitespace. -/
theorem binary_type_detection_witness :
    inferColumnType [.str "Yes", .str " no ", .str "YES"] = .binary :=
  binary_type_detection.1 [.str "Yes", .str " no ", .str "YES"]
    (by
      intro v hv
      simp only [List.mem_cons, List.not_mem_nil, or_false] at hv
      rcases hv with rfl | rfl | rfl
      · exact Or.inr ⟨"Yes", rfl, Or.inl (by decide)⟩
      · exact Or.inr ⟨" no ", rfl, Or.inr (by decide)⟩
      · exact Or.inr ⟨"YES", rfl, Or.inl (by decide)⟩)
    ⟨"Yes", by simp⟩

/-! ## C7: load validation and total type assignment -/

theorem pyUnique_length_le {α : Type} [DecidableEq α] :
    ∀ (l : List α), (pyUnique l).length ≤ l.length := by
  have key : ∀ (n : Nat) (l : List α), l.length = n → (pyUnique l).length ≤ l.length := by
    intro n
    induction n using Nat.strong_induction_on with
    | _ n ih =>
      intro l hn
      match l with
      | [] => simp [pyUnique_nil]
      | y :: ys =>
        rw [pyUnique_cons]
        have hlt : (ys.filter (fun z => z ≠ y)).length < n := by
          subst hn
          simp only [List.length_cons]
          exact Nat.lt_succ_of_le (List.length_filter_le _ _)
        have h1 := ih _ hlt _ rfl
        have h2 := List.length_filter_le (fun z => z ≠ y) ys
        simp only [List.length_cons]
        omega
  exact fun l => key l.length l rfl

theorem length_filter_ne_lt {α : Type} [DecidableEq α] {x : α} {xs : List α}
    (h : x ∈ xs) : (xs.filter (fun y => y ≠ x)).length < xs.length := by
  induction xs with
  | nil => cases h
  | cons a as ih =>
    by_cases hax : a = x
    · subst hax
      have hstep : (a :: as).filter (fun y => y ≠ a) = as.filter (fun y => y ≠ a) := by
        simp [List.filter_cons]
      rw [hstep]
      simp only [List.length_cons]
      exact Nat.lt_succ_of_le (List.length_filter_le _ _)
    · have h' : x ∈ as := by
        rcases List.mem_cons.mp h with rfl | h2
        · exact absurd rfl hax
        · exact h2
      have hstep : (a :: as).filter (fun y => y ≠ x) = a :: as.filter (fun y => y ≠ x) := by
        simp [List.filter_cons, hax]
      rw [hstep]
      simp only [List.length_cons]
      exact Nat.succ_lt_succ (ih h')

theorem pyUnique_length_eq_iff {α : Type} [DecidableEq α] :
    ∀ (l : List α), ((pyUnique l).length = l.length ↔ l.Nodup) := by
  have key : ∀ (n : Nat) (l : List α), l.length = n →
      ((pyUnique l).length = l.length ↔ l.Nodup) := by
    intro n
    induction n using Nat.strong_induction_on with
    | _ n ih =>
      intro l hn
      match l with
      | [] => simp [pyUnique_nil]
      | y :: ys =>
        rw [pyUnique_cons]
        by_cases hy : y ∈ ys
        · have hlt := length_filter_ne_lt hy
          have hle := pyUnique_length_le (ys.filter (fun z => z ≠ y))
          constructor
          · intro heq
            exfalso
            simp only [List.length_cons] at heq
            omega
          · intro hnd
            exact absurd hy (List.nodup_cons.mp hnd).1
        · have hfe : ys.filter (fun z => z ≠ y) = ys := by
            apply List.filter_eq_self.mpr
            intro a ha
            have hane : a ≠ y := fun hcontra => hy (hcontra ▸ ha)
            simp [hane]
          rw [hfe]
          have hys : ys.length < n := by
            subst hn
            simp
          simp only [List.length_cons, Nat.succ_inj, List.nodup_cons]
          rw [ih _ hys _ rfl]
          simp [hy]
  exact fun l => key l.length l rfl

theorem find?_map_self {β : Type} (f : String → β) :
    ∀ (l : List String) (c : String), c ∈ l →
      (l.map (fun d => (d, f d))).find? (fun p => p.1 = c) = some (c, f c) := by
  intro l
  induction l with
  | nil => intro c hc; cases hc
  | cons a as ih =>
    intro c hc
    simp only [List.map_cons]
    by_cases hac : a = c
    · subst hac
      rw [List.find?_cons_of_pos]
      simp
    · rw [List.find?_cons_of_neg]
      · apply ih
        rcases List.mem_cons.mp hc with rfl | h
        · exact absurd rfl hac
        · exact h
      · simp [hac]

/-! ## C6: atomicity of dataset load-and-replace -/

/-- Counterexample for C6 as stated: the duplicate-normalized-name failure
leaves the load unsuccessful and the dataset untouched, yet the
normalized-to-original column-name map of the session has been replaced by
the new headers map. -/
theorem load_atomicity_counterexample :
    (loadExcel priorState (.ok dupHeaderTable)).success = false ∧
    (loadExcel priorState (.ok dupHeaderTable)).state.originalColumns = [("b", "B?")] ∧
    (loadExcel priorState (.ok dupHeaderTable)).state.originalColumns ≠
      priorState.originalColumns ∧
    (loadExcel priorState (.ok dupHeaderTable)).state.df = priorState.df := by
  refine ⟨by decide, by decide, by decide, by decide⟩

/-- C6 (amended): every failing load attempt leaves the dataset, the
inferred type map and the four per-type column lists untouched, and the
normalized-to-original column-name map is untouched on every failure except
the duplicate-normalized-name failure: it equals the prior map on a read
error and on each of the four validation failures (empty table, more than
500 rows, more than 20 columns, fewer than 1 column), while whenever all of
those checks pass and the load still fails, that failure is precisely a
duplicate among the normalized header names and the map has been replaced
by the map rebuilt from the new headers. -/
theorem load_failure_preserves_state :
    ∀ (st : ProcState) (input : Except String RawTable),
      (loadExcel st input).success = false →
      (loadExcel st input).state.df = st.df ∧
      (loadExcel st input).state.columnTypes = st.columnTypes ∧
      (loadExcel st input).state.numericColumns = st.numericColumns ∧
      (loadExcel st input).state.categoricalColumns = st.categoricalColumns ∧
      (loadExcel st input).state.binaryColumns = st.binaryColumns ∧
      (loadExcel st input).state.datetimeColumns = st.datetimeColumns ∧
      (∀ e, input = .error e →
        (loadExcel st input).state.originalColumns = st.originalColumns) ∧
      (∀ t, input = .ok t →
        ((t.isEmptyTable = true ∨ 500 < t.rows.length ∨ 20 < t.headers.length ∨
            t.headers.length < 1) →
          (loadExcel st input).state.originalColumns = st.originalColumns) ∧
        (t.isEmptyTable = false → t.rows.length ≤ 500 → t.headers.length ≤ 20 →
          1 ≤ t.headers.length →
          ¬ (t.headers.map normalizeColumnName).Nodup ∧
          (loadExcel st input).state.originalColumns = headerMap t)) := by
  intro st input hfail
  match input with
  | .error e =>
    exact ⟨rfl, rfl, rfl, rfl, rfl, rfl, fun e' he' => rfl, fun t ht => Except.noConfusion ht⟩
  | .ok t =>
    unfold loadExcel at hfail ⊢
    dsimp only at hfail ⊢
    split_ifs with h1 h2 h3 h4 h5
    · exact ⟨rfl, rfl, rfl, rfl, rfl, rfl, fun e he => False.elim he, fun t' ht' => by
        injection ht' with ht''
        subst ht''
        exact ⟨fun _ => rfl, fun hempty _ _ _ => absurd h1 (by simp [hempty])⟩⟩
    · exact ⟨rfl, rfl, rfl, rfl, rfl, rfl, fun e he => False.elim he, fun t' ht' => by
        injection ht' with ht''
        subst ht''
        exact ⟨fun _ => rfl, fun _ hr _ _ => absurd h2 (by omega)⟩⟩
    · exact ⟨rfl, rfl, rfl, rfl, rfl, rfl, fun e he => False.elim he, fun t' ht' => by
        injection ht' with ht''
        subst ht''
        exact ⟨fun _ => rfl, fun _ _ hc _ => absurd h3 (by omega)⟩⟩
    · exact ⟨rfl, rfl, rfl, rfl, rfl, rfl, fun e he => False.elim he, fun t' ht' => by
        injection ht' with ht''
        subst ht''
        exact ⟨fun _ => rfl, fun _ _ _ hc1 => absurd h4 (by omega)⟩⟩
    · refine ⟨rfl, rfl, rfl, rfl, rfl, rfl, fun e he => False.elim he, fun t' ht' => ?_⟩
      injection ht' with ht''
      subst ht''
      refine ⟨fun hdisj => ?_, fun _ _ _ _ =>
        ⟨fun hnd => h5 ((pyUnique_length_eq_iff _).mpr hnd), by unfold headerMap; rfl⟩⟩
      rcases hdisj with hx | hx | hx | hx
      · exact absurd hx h1
      · exact absurd hx (by omega)
      · exact absurd hx (by omega)
      · exact absurd hx (by omega)
    · simp only [h1, h2, h3, h4, h5] at hfail
      simp at hfail

/-- Witness for C6 (amended): the concrete duplicate-header load leaves the
dataset and the type map untouched but replaces the name map by the
new-headers map, while a concrete empty-table load leaves the name map
untouched. -/
theorem load_failure_preserves_state_witness :
    (loadExcel priorState (.ok dupHeaderTable)).state.df = priorState.df ∧
    (loadExcel priorState (.ok dupHeaderTable)).state.columnTypes =
      priorState.columnTypes ∧
    (loadExcel priorState (.ok dupHeaderTable)).state.originalColumns =
      headerMap dupHeaderTable ∧
    (loadExcel priorState
        (.ok { headers := [], rows := [] })).state.originalColumns =
      priorState.originalColumns := by
  have h1 := load_failure_preserves_state priorState (.ok dupHeaderTable) (by decide)
  have h2 := load_failure_preserves_state priorState
    (.ok { headers := [], rows := [] }) (by decide)
  refine ⟨h1.1, h1.2.1, ((h1.2.2.2.2.2.2.2 dupHeaderTable rfl).2 (by decide) (by decide)
    (by decide) (by decide)).2, ?_⟩
  exact (h2.2.2.2.2.2.2.2 _ rfl).1 (Or.inl (by decide))


/-- C7: a table whose headers normalize to duplicate names fails to load;
a table with 1 to 500 rows, 1 to 20 columns and duplicate-free normalized
headers loads successfully and its type map assigns exactly one of the four
type tags to every column; zero rows, more than 500 rows, zero columns and
more than 20 columns each fail. -/
theorem loadExcel_validation :
    (∀ (st : ProcState) (t : RawTable),
      ¬ (t.headers.map normalizeColumnName).Nodup →
      (loadExcel st (.ok t)).success = false) ∧
    (∀ (st : ProcState) (t : RawTable),
      1 ≤ t.rows.length → t.rows.length ≤ 500 →
      1 ≤ t.headers.length → t.headers.length ≤ 20 →
      (t.headers.map normalizeColumnName).Nodup →
      (loadExcel st (.ok t)).success = true ∧
      ∃ df, (loadExcel st (.ok t)).state.df = some df ∧
        df.cols = t.headers.map normalizeColumnName ∧
        (loadExcel st (.ok t)).state.columnTypes.map Prod.fst = df.cols ∧
        ∀ c ∈ df.cols, ∃ ty : CType,
          dictGet? (loadExcel st (.ok t)).state.columnTypes c = some ty) ∧
    (∀ (st : ProcState) (t : RawTable),
      t.rows.length = 0 → (loadExcel st (.ok t)).success = false) ∧
    (∀ (st : ProcState) (t : RawTable),
      500 < t.rows.length → (loadExcel st (.ok t)).success = false) ∧
    (∀ (st : ProcState) (t : RawTable),
      t.headers.length = 0 → (loadExcel st (.ok t)).success = false) ∧
    (∀ (st : ProcState) (t : RawTable),
      20 < t.headers.length → (loadExcel st (.ok t)).success = false) := by
  refine ⟨?_, ?_, ?_, ?_, ?_, ?_⟩
  · intro st t hdup
    unfold loadExcel
    dsimp only
    split_ifs with h1 h2 h3 h4 h5
    · rfl
    · rfl
    · rfl
    · rfl
    · rfl
    · exfalso
      apply hdup
      rw [← pyUnique_length_eq_iff]
      omega
  · intro st t hr1 hr2 hc1 hc2 hnd
    have hempty : t.isEmptyTable = false := by
      unfold RawTable.isEmptyTable
      simp only [Bool.or_eq_false_iff, decide_eq_false_iff_not]
      omega
    have hlen : (pyUnique (t.headers.map normalizeColumnName)).length =
        (t.headers.map normalizeColumnName).length :=
      (pyUnique_length_eq_iff _).mpr hnd
    unfold loadExcel
    dsimp only
    rw [if_neg (by simp [hempty]), if_neg (by omega), if_neg (by omega),
      if_neg (by omega), if_neg (by omega)]
    refine ⟨rfl, ?_⟩
    refine ⟨_, rfl, rfl, ?_, ?_⟩
    · simp [inferColumnTypes, List.map_map]
    · intro c hc
      have hcmem : c ∈ t.headers.map normalizeColumnName := by
        simpa [inferColumnTypes] using hc
      simp only [inferColumnTypes]
      refine ⟨inferColumnType (DataFrame.colValues
        { cols := t.headers.map normalizeColumnName, rows := t.rows } c), ?_⟩
      unfold dictGet?
      rw [find?_map_self _ _ _ hcmem]
      rfl
  · intro st t hr
    unfold loadExcel
    dsimp only
    rw [if_pos]
    unfold RawTable.isEmptyTable
    simp [hr]
  · intro st t hr
    unfold loadExcel
    dsimp only
    split_ifs <;> first | rfl | omega
  · intro st t hc
    unfold loadExcel
    dsimp only
    rw [if_pos]
    unfold RawTable.isEmptyTable
    simp [hc]
  · intro st t hc
    unfold loadExcel
    dsimp only
    split_ifs <;> first | rfl | omega

/-- Witness for C7 at concrete tables: duplicate normalized headers fail, a
small valid table loads, and zero rows, 501 rows, zero columns and 21
columns each fail. -/
theorem loadExcel_validation_witness :
    (loadExcel ProcState.init (.ok dupHeaderTable)).success = false ∧
    (loadExcel ProcState.init
      (.ok { headers := ["Age"], rows := [[.num 25]] })).success = true ∧
    (loadExcel ProcState.init
      (.ok { headers := ["Age"], rows := [] })).success = false ∧
    (loadExcel ProcState.init
      (.ok { headers := ["Age"], rows := List.replicate 501 [.num 1] })).success = false ∧
    (loadExcel ProcState.init
      (.ok { headers := [], rows := [[.num 1]] })).success = false ∧
    (loadExcel ProcState.init
      (.ok { headers := List.replicate 21 "H", rows := [[.num 1]] })).success = false :=
  ⟨loadExcel_validation.1 ProcState.init dupHeaderTable (by decide),
   (loadExcel_validation.2.1 ProcState.init _ (by decide) (by decide) (by decide)
      (by decide) (by decide)).1,
   loadExcel_validation.2.2.1 ProcState.init _ rfl,
   loadExcel_validation.2.2.2.1 ProcState.init _
     (by rw [List.length_replicate]; omega),
   loadExcel_validation.2.2.2.2.1 ProcState.init _ rfl,
   loadExcel_validation.2.2.2.2.2 ProcState.init _
     (by rw [List.length_replicate]; omega)⟩

/-! ## C8: rounding and presence of summary aggregates -/

/-- Every value produced by `round2` is a whole number of hundredths. -/
theorem round2_eq_hundredth (x : Rat) : ∃ k : Int, round2 x = (k : Rat) / 100 :=
  ⟨roundHalfEven (ratMul x (ratOfNat 100)), by
    unfold round2
    rw [Rat.divInt_eq_div]
    norm_num⟩

/-- C8 (amended): in the numeric summary record, the mean (and median) are
absent exactly when the column has zero non-missing values, the sample
standard deviation is absent exactly when it has fewer than two, and every
reported mean, median and standard deviation is a whole number of
hundredths (rounded to two decimal places); a single-column summary through
the executor consists of exactly this record. -/
theorem summary_mean_std_presence :
    (∀ (origName : String) (colData : List Rat),
      (dictGet? (qhNumericRecord origName colData) "Mean" = some .null ↔
        colData.length = 0) ∧
      (dictGet? (qhNumericRecord origName colData) "Std" = some .null ↔
        colData.length ≤ 1) ∧
      (∀ x : Rat, dictGet? (qhNumericRecord origName colData) "Mean" = some (.num x) →
        ∃ k : Int, x = (k : Rat) / 100) ∧
      (∀ x : Rat, dictGet? (qhNumericRecord origName colData) "Median" = some (.num x) →
        ∃ k : Int, x = (k : Rat) / 100) ∧
      (∀ x : Rat, dictGet? (qhNumericRecord origName colData) "Std" = some (.num x) →
        ∃ k : Int, x = (k : Rat) / 100)) ∧
    (∀ (st : ProcState) (df : DataFrame) (query col : String),
      st.df = some df → col ∈ df.cols → col ∈ st.numericColumns →
      qhHandleSummary st query [col] =
        .combined ("Here are the results for your query about " ++ query ++ ":")
          [qhNumericRecord (dictGet st.originalColumns col col)
            (numericColData df col)]) := by
  constructor
  · intro origName colData
    have hMean : dictGet? (qhNumericRecord origName colData) "Mean" =
        some (if 0 < colData.length then Value.num (round2 (pyMean colData))
              else Value.null) := by
      unfold qhNumericRecord dictGet?
      rw [List.find?_cons_of_neg _ (by simp), List.find?_cons_of_neg _ (by simp),
        List.find?_cons_of_pos _ (by simp)]
      rfl
    have hMed : dictGet? (qhNumericRecord origName colData) "Median" =
        some (if 0 < colData.length then Value.num (round2 (pyMedian colData))
              else Value.null) := by
      unfold qhNumericRecord dictGet?
      rw [List.find?_cons_of_neg _ (by simp), List.find?_cons_of_neg _ (by simp),
        List.find?_cons_of_neg _ (by simp), List.find?_cons_of_pos _ (by simp)]
      rfl
    have hStd : dictGet? (qhNumericRecord origName colData) "Std" =
        some (if 1 < colData.length then Value.num (round2 (pyStd colData))
              else Value.null) := by
      unfold qhNumericRecord dictGet?
      rw [List.find?_cons_of_neg _ (by simp), List.find?_cons_of_neg _ (by simp),
        List.find?_cons_of_neg _ (by simp), List.find?_cons_of_neg _ (by simp),
        List.find?_cons_of_neg _ (by simp), List.find?_cons_of_neg _ (by simp),
        List.find?_cons_of_pos _ (by simp)]
      rfl
    refine ⟨?_, ?_, ?_, ?_, ?_⟩
    · rw [hMean]
      by_cases hl : 0 < colData.length
      · simp only [if_pos hl, Option.some.injEq]
        constructor
        · intro h; exact absurd h (by simp)
        · intro h; omega
      · simp only [if_neg hl, Option.some.injEq]
        constructor
        · intro _; omega
        · intro _; trivial
    · rw [hStd]
      by_cases hl : 1 < colData.length
      · simp only [if_pos hl, Option.some.injEq]
        constructor
        · intro h; exact absurd h (by simp)
        · intro h; omega
      · simp only [if_neg hl, Option.some.injEq]
        constructor
        · intro _; omega
        · intro _; trivial
    · intro x hx
      rw [hMean] at hx
      by_cases hl : 0 < colData.length
      · simp only [if_pos hl, Option.some.injEq, Value.num.injEq] at hx
        obtain ⟨k, hk⟩ := round2_eq_hundredth (pyMean colData)
        exact ⟨k, by rw [← hx]; exact hk⟩
      · simp only [if_neg hl, Option.some.injEq] at hx
        exact absurd hx (by simp)
    · intro x hx
      rw [hMed] at hx
      by_cases hl : 0 < colData.length
      · simp only [if_pos hl, Option.some.injEq, Value.num.injEq] at hx
        obtain ⟨k, hk⟩ := round2_eq_hundredth (pyMedian colData)
        exact ⟨k, by rw [← hx]; exact hk⟩
      · simp only [if_neg hl, Option.some.injEq] at hx
        exact absurd hx (by simp)
    · intro x hx
      rw [hStd] at hx
      by_cases hl : 1 < colData.length
      · simp only [if_pos hl, Option.some.injEq, Value.num.injEq] at hx
        obtain ⟨k, hk⟩ := round2_eq_hundredth (pyStd colData)
        exact ⟨k, by rw [← hx]; exact hk⟩
      · simp only [if_neg hl, Option.some.injEq] at hx
        exact absurd hx (by simp)
  · intro st df query col hdf hcol hnum
    unfold qhHandleSummary
    rw [hdf]
    simp [hcol, hnum, List.filterMap]

/-- Counterexample for C8 as stated: a numeric column with exactly one
non-missing value (fewer than two) still reports its mean as the number 5,
not as absent; only the standard deviation is absent. -/
theorem summary_mean_counterexample :
    (numericColData { cols := ["v"], rows := [[.num 5]] } "v").length < 2 ∧
    dictGet? (qhNumericRecord "V"
      (numericColData { cols := ["v"], rows := [[.num 5]] } "v")) "Mean" =
      some (.num 5) ∧
    qhHandleSummary oneValState "the mean" ["v"] =
      .combined "Here are the results for your query about the mean:"
        [[("Column", .str "V"), ("Count", .num 1), ("Mean", .num 5),
          ("Median", .num 5), ("Min", .num 5), ("Max", .num 5),
          ("Std", .null)]] := by
  refine ⟨by decide, by decide, by decide⟩

/-- Witness for C8 at concrete columns: the empty column reports its mean
as absent, and the reported mean of a one-third column is a whole number of
hundredths. -/
theorem summary_mean_std_presence_witness :
    dictGet? (qhNumericRecord "V" []) "Mean" = some .null ∧
    (∃ k : Int, (mkRat 33 100 : Rat) = (k : Rat) / 100) ∧
    qhHandleSummary oneValState "the mean" ["v"] =
      .combined "Here are the results for your query about the mean:"
        [qhNumericRecord (dictGet oneValState.originalColumns "v" "v")
          (numericColData { cols := ["v"], rows := [[.num 5]] } "v")] :=
  ⟨(summary_mean_std_presence.1 "V" []).1.mpr rfl,
   (summary_mean_std_presence.1 "V" [mkRat 1 3]).2.2.1 (mkRat 33 100)
     (by decide),
   summary_mean_std_presence.2 oneValState
     { cols := ["v"], rows := [[.num 5]] } "the mean" "v"
     (by decide) (by decide) (by decide)⟩

/-! ## Bridging lemmas: the reducible arithmetic agrees with the library -/

theorem ratAdd_eq (a b : Rat) : ratAdd a b = a + b := by
  unfold ratAdd
  rw [Rat.mkRat_eq_divInt, Rat.divInt_eq_div]
  have hda : ((a.den : Rat)) ≠ 0 := by
    exact_mod_cast a.den_nz
  have hdb : ((b.den : Rat)) ≠ 0 := by
    exact_mod_cast b.den_nz
  conv_rhs => rw [← Rat.num_div_den a, ← Rat.num_div_den b]
  rw [div_add_div _ _ hda hdb]
  push_cast
  ring_nf

theorem ratSub_eq (a b : Rat) : ratSub a b = a - b := by
  unfold ratSub
  rw [Rat.mkRat_eq_divInt, Rat.divInt_eq_div]
  have hda : ((a.den : Rat)) ≠ 0 := by
    exact_mod_cast a.den_nz
  have hdb : ((b.den : Rat)) ≠ 0 := by
    exact_mod_cast b.den_nz
  conv_rhs => rw [← Rat.num_div_den a, ← Rat.num_div_den b]
  rw [div_sub_div _ _ hda hdb]
  push_cast
  ring_nf

theorem ratMul_eq (a b : Rat) : ratMul a b = a * b := by
  unfold ratMul
  rw [Rat.mkRat_eq_divInt, Rat.divInt_eq_div]
  conv_rhs => rw [← Rat.num_div_den a, ← Rat.num_div_den b]
  rw [div_mul_div_comm]
  push_cast
  ring_nf

theorem ratDiv_eq (a b : Rat) : ratDiv a b = a / b := by
  unfold ratDiv
  by_cases hb : b = 0
  · subst hb
    rw [Rat.divInt_eq_div]
    simp
  · have hbn : ((b.num : Rat)) ≠ 0 := by
      exact_mod_cast Rat.num_ne_zero.mpr hb
    have hda : ((a.den : Rat)) ≠ 0 := by
      exact_mod_cast a.den_nz
    have hdb : ((b.den : Rat)) ≠ 0 := by
      exact_mod_cast b.den_nz
    rw [Rat.divInt_eq_div]
    conv_rhs => rw [← Rat.num_div_den a, ← Rat.num_div_den b]
    rw [div_div_div_comm]
    push_cast
    rw [div_div_eq_mul_div, div_mul_eq_mul_div, mul_comm ((a.den : Rat)) ((b.num : Rat))]
    ring_nf

theorem ratOfNat_eq (n : Nat) : ratOfNat n = (n : Rat) := by
  unfold ratOfNat
  rw [Rat.mkRat_eq_divInt, Rat.divInt_eq_div]
  simp

theorem ratSum_eq (l : List Rat) : ratSum l = l.sum := by
  have key : ∀ (l : List Rat) (a : Rat), l.foldl ratAdd a = a + l.sum := by
    intro l
    induction l with
    | nil => intro a; simp
    | cons x xs ih =>
      intro a
      simp only [List.foldl_cons, List.sum_cons, ih, ratAdd_eq]
      ring
  unfold ratSum
  rw [key]
  simp

/-! ## C2: numeric threshold filtering on the age column -/

/-- C2 (bug demonstration): the filter executor itself behaves as the claim
says whenever the age column is numeric — on any numeric age values,
`customers under 30` selects exactly the rows with age strictly below 30
and reports the full match count (on 25, 30, 35, 28, 42 the two rows 25 and
28 with count 2); `below` likewise maps to strictly-less-than, `over` and
`above` to strictly-greater-than; and with two numeric columns whose names
contain `age` the first one is filtered.  But loading the claim's table
itself types the integer age column datetime (`pd.to_datetime` accepts
in-range plain numbers as epoch timestamps), so `numeric_columns` is empty,
no threshold condition is extracted, and the program answers the claim
scenario with the could-not-understand-the-filter error instead of the two
rows. -/
theorem filter_age_threshold_bug :
    (∀ ages : List Rat,
      fbHandleFilter (ageState ages) "customers under 30" =
        if 0 < (ages.filter (fun a => a < 30)).length then
          .combined ("Found " ++ toString (ages.filter (fun a => a < 30)).length ++
              " records matching your criteria.")
            (((ages.filter (fun a => a < 30)).take 20).map
              (fun a => [("Age", Value.num a)]))
        else .text "No records found matching your criteria.") ∧
    fbHandleFilter (ageState [25, 30, 35, 28, 42]) "customers under 30" =
      .combined "Found 2 records matching your criteria."
        [[("Age", .num 25)], [("Age", .num 28)]] ∧
    fbHandleFilter (ageState [25, 30, 35, 28, 42]) "customers below 30" =
      .combined "Found 2 records matching your criteria."
        [[("Age", .num 25)], [("Age", .num 28)]] ∧
    fbHandleFilter (ageState [25, 30, 35, 28, 42]) "customers over 30" =
      .combined "Found 2 records matching your criteria."
        [[("Age", .num 35)], [("Age", .num 42)]] ∧
    fbHandleFilter (ageState [25, 30, 35, 28, 42]) "customers above 30" =
      .combined "Found 2 records matching your criteria."
        [[("Age", .num 35)], [("Age", .num 42)]] ∧
    fbHandleFilter twoAgeColState "under 30" =
      .combined "Found 1 records matching your criteria."
        [[("Wage", .num 10), ("Age", .num 70)]] ∧
    (loadExcel ProcState.init (.ok exAgeTable)).success = true ∧
    (loadExcel ProcState.init (.ok exAgeTable)).state.columnTypes =
      [("age", CType.datetime)] ∧
    (loadExcel ProcState.init (.ok exAgeTable)).state.numericColumns = [] ∧
    fbHandleFilter exAgeState "customers under 30" =
      .error "I couldn't understand the filter conditions. Please try being more specific about what you want to filter." := by
  refine ⟨?_, by decide, by decide, by decide, by decide, by decide,
    by decide, by decide, by decide, by decide⟩
  intro ages
  have hfm : findThresholds "customers under 30" = [(ThKind.under, 30)] := by decide
  have hage : ageCols (ageState ages) = ["age"] := rfl
  have hdf : (ageState ages).df = some (ageFrame ages) := rfl
  have hcat : ∀ start, catPass (ageState ages) (ageFrame ages) "customers under 30" start = start := by
    intro start
    unfold catPass
    rfl
  have hth : thresholdPass (ageState ages) (ageFrame ages) "customers under 30" =
      ((ages.filter (fun a => a < 30)).map (fun a => [Value.num a]), true) := by
    unfold thresholdPass
    rw [hfm, hage]
    dsimp only [List.isEmpty, List.foldl]
    unfold applyThreshold ageFrame
    rw [List.filter_map, if_neg (by simp)]
    rfl
  unfold fbHandleFilter
  rw [hdf]
  dsimp only
  rw [hth, hcat]
  dsimp only
  rw [List.length_map]
  have hdisp : displayRows (ageState ages) (ageFrame ages)
      (List.take 20 ((ages.filter (fun a => a < 30)).map (fun a => [Value.num a]))) =
      ((ages.filter (fun a => a < 30)).take 20).map
        (fun a => [("Age", Value.num a)]) := by
    rw [← List.map_take]
    unfold displayRows
    rw [List.map_map]
    rfl
  by_cases hm : 0 < (ages.filter (fun a => a < 30)).length
  · simp [hm, hdisp]
  · simp [hm]

/-! ## C4: how many filter conditions the executor applies -/

theorem foldl_applyThreshold (i : Nat) :
    ∀ (ms : List (ThKind × Nat)) (rows : List (List Value)),
      ms.foldl (fun acc m => applyThreshold i m.1 m.2 acc) rows =
        rows.filter (fun r =>
          (ms.map (fun m => FilterCond.threshold i m.1 m.2)).all (rowSat r)) := by
  intro ms
  induction ms with
  | nil => intro rows; simp
  | cons m ms' ih =>
    intro rows
    simp only [List.foldl_cons, List.map_cons, List.all_cons]
    rw [ih]
    show (rows.filter (fun r => rowSat r (.threshold i m.1 m.2))).filter _ = _
    rw [List.filter_filter]
    congr 1
    funext a
    rw [Bool.and_comm]

theorem thresholdPass_characterization (st : ProcState) (df : DataFrame) (q : String) :
    thresholdPass st df q =
      (df.rows.filter (fun r => (thresholdConds st df q).all (rowSat r)),
       !(thresholdConds st df q).isEmpty) := by
  unfold thresholdPass thresholdConds
  cases hms : findThresholds q with
  | nil => simp
  | cons m ms' =>
    cases hac : ageCols st with
    | nil => simp
    | cons c cs =>
      simp only [List.isEmpty_cons, if_neg (by simp : ¬((false : Bool) = true))]
      rw [foldl_applyThreshold]
      rw [Prod.mk.injEq]
      exact ⟨rfl, by simp⟩

theorem catFold_characterization (st : ProcState) (df : DataFrame) (q : String) :
    ∀ (L : List String) (rows : List (List Value)) (flag : Bool),
      L.foldl (catStep st df q) (rows, flag) =
        (rows.filter (fun r => (L.filterMap (catCondOf st df q)).all (rowSat r)),
         flag || !(L.filterMap (catCondOf st df q)).isEmpty) := by
  intro L
  induction L with
  | nil => intro rows flag; simp
  | cons col L' ih =>
    intro rows flag
    simp only [List.foldl_cons]
    cases hfind : (pyUnique ((df.colValues col).filter (fun v => v ≠ .null))).find?
        (fun v => pyIn (pyLower (pyStr v)) q) with
    | none =>
      have hstep : catStep st df q (rows, flag) col = (rows, flag) := by
        unfold catStep
        dsimp only
        rw [hfind]
      have hcc : catCondOf st df q col = none := by
        unfold catCondOf
        rw [hfind]
        rfl
      rw [hstep, ih]
      simp [List.filterMap_cons, hcc]
    | some v =>
      have hstep : catStep st df q (rows, flag) col =
          (rows.filter (fun r => rowCell r (df.colIdx col) = v), true) := by
        unfold catStep
        dsimp only
        rw [hfind]
      have hcc : catCondOf st df q col = some (.equality (df.colIdx col) v) := by
        unfold catCondOf
        rw [hfind]
        rfl
      rw [hstep, ih]
      simp only [List.filterMap_cons, hcc, List.all_cons, List.isEmpty_cons,
        Bool.or_true, Bool.not_false]
      rw [Prod.mk.injEq]
      constructor
      · show (rows.filter (fun r => rowSat r (.equality (df.colIdx col) v))).filter _ = _
        rw [List.filter_filter]
        congr 1
        funext a
        rw [Bool.and_comm]
      · simp

/-- C4 (amended): the filter executor applies at most one
categorical-equality condition per column — the first distinct value of
each categorical or binary column occurring in the query — but it conjoins
these conditions across all matching columns, and likewise applies every
numeric-threshold match, all conjoined: the selected rows are exactly the
rows satisfying every extracted condition, with an error when no condition
was extracted and a text response when no row matches. -/
theorem fbHandleFilter_conjoins_all :
    ∀ (st : ProcState) (df : DataFrame) (q : String),
      st.df = some df →
      fbHandleFilter st q =
        if (extractConds st df q).isEmpty then
          .error "I couldn't understand the filter conditions. Please try being more specific about what you want to filter."
        else if 0 < (df.rows.filter (fun r => (extractConds st df q).all (rowSat r))).length then
          .combined ("Found " ++
              toString (df.rows.filter (fun r =>
                (extractConds st df q).all (rowSat r))).length ++
              " records matching your criteria.")
            (displayRows st df
              ((df.rows.filter (fun r =>
                (extractConds st df q).all (rowSat r))).take 20))
        else .text "No records found matching your criteria." := by
  intro st df q hdf
  unfold fbHandleFilter extractConds catConds catPass
  rw [hdf]
  dsimp only
  rw [thresholdPass_characterization, catFold_characterization, List.filter_filter]
  have hall : (fun r => ((st.categoricalColumns ++ st.binaryColumns).filterMap
        (catCondOf st df q)).all (rowSat r) &&
      (thresholdConds st df q).all (rowSat r)) =
      (fun r => ((thresholdConds st df q) ++
        (st.categoricalColumns ++ st.binaryColumns).filterMap
          (catCondOf st df q)).all (rowSat r)) := by
    funext r
    rw [List.all_append, Bool.and_comm]
  rw [hall]
  by_cases hemp : ((thresholdConds st df q) ++
      (st.categoricalColumns ++ st.binaryColumns).filterMap
        (catCondOf st df q)).isEmpty
  · have hA : thresholdConds st df q = [] := by
      cases hA0 : thresholdConds st df q <;> simp_all
    have hB : (st.categoricalColumns ++ st.binaryColumns).filterMap
        (catCondOf st df q) = [] := by
      cases hB0 : (st.categoricalColumns ++ st.binaryColumns).filterMap
        (catCondOf st df q) <;> simp_all
    rw [hA, hB]
    simp
  · have hflag : (!(thresholdConds st df q).isEmpty ||
        !((st.categoricalColumns ++ st.binaryColumns).filterMap
          (catCondOf st df q)).isEmpty) = true := by
      cases hA0 : thresholdConds st df q <;>
        cases hB0 : (st.categoricalColumns ++ st.binaryColumns).filterMap
          (catCondOf st df q) <;> simp_all
    rw [if_pos hflag, if_neg hemp]

/-- Counterexample for C4 as stated: with two categorical columns whose
values `x` and `p` both occur in the query, the executor conjoins both
equality conditions and reports a single matching row, whereas applying
only the first matching column/value pair would keep both rows (count
2). -/
theorem filter_one_condition_counterexample :
    fbHandleFilter catState "x p" =
      .combined "Found 1 records matching your criteria."
        [[("A", .str "x"), ("B", .str "p")]] ∧
    specFilterOneCondition catState catFrame "x p" =
      [[.str "x", .str "p"], [.str "x", .str "q"]] ∧
    (specFilterOneCondition catState catFrame "x p").length = 2 ∧
    (2 : Nat) ≠ 1 := by
  refine ⟨by decide, by decide, by decide, by decide⟩

/-- Witness for C4 (amended) at the two-categorical-column state. -/
theorem fbHandleFilter_conjoins_all_witness :
    fbHandleFilter catState "x p" =
      if (extractConds catState catFrame "x p").isEmpty then
        .error "I couldn't understand the filter conditions. Please try being more specific about what you want to filter."
      else if 0 < (catFrame.rows.filter (fun r =>
          (extractConds catState catFrame "x p").all (rowSat r))).length then
        .combined ("Found " ++
            toString (catFrame.rows.filter (fun r =>
              (extractConds catState catFrame "x p").all (rowSat r))).length ++
            " records matching your criteria.")
          (displayRows catState catFrame
            ((catFrame.rows.filter (fun r =>
              (extractConds catState catFrame "x p").all (rowSat r))).take 20))
      else .text "No records found matching your criteria." :=
  fbHandleFilter_conjoins_all catState catFrame "x p" (by decide)
